import Mathlib

/-!
Verification of the runcfg configuration loader.

Shallow embedding of the Go sources of github.com/joaopenteado/runcfg:
Go strings are lists of characters, the process environment is a total map
from variable names to values (an unset variable maps to the empty string,
exactly the view `os.Getenv` gives), the instance metadata server is a
record of per-endpoint responses, and the concurrent `errgroup` tasks are
modelled as an explicit spawn-ordered task list whose per-field writes are
disjoint.  `errgroup.Group.Wait` returns the error of the first failing
task; completion order is nondeterministic in Go, and is modelled here by
spawn order (every admissible completion order likewise surfaces exactly
one task's error).
-/

set_option autoImplicit false

/-- Go strings, modelled as lists of characters. -/
abbrev GoStr := List Char

/-- Conversion from Lean string literals to the Go string model. -/
def str (s : String) : GoStr := s.toList

/-- The process environment: a total map from environment-variable names to
values.  An unset variable yields the empty string, matching `os.Getenv`. -/
abbrev Env := GoStr → GoStr

/-- `GetFirstEnv` from `utils.go:8-16`: checks each name in order and
returns the first non-empty value found, or the empty string. -/
def GetFirstEnv (env : Env) : List GoStr → GoStr
  | [] => []
  | k :: ks => if env k ≠ [] then env k else GetFirstEnv env ks

/-- C8: for every ordered candidate list with at least one name bound to a
non-empty value, `GetFirstEnv` returns the value of the first such name in
list order; if every name is unset or empty it returns the empty string.
The function is total, so no input is an error. -/
theorem GetFirstEnv_resolves_first_nonempty (env : Env) (ks : List GoStr) :
    GetFirstEnv env ks =
      match ks.find? (fun k => !(env k).isEmpty) with
      | some k => env k
      | none => [] := by
  induction ks with
  | nil => rfl
  | cons k ks ih =>
    by_cases h : env k = []
    · rw [GetFirstEnv, if_neg (by simp [h]), ih,
        List.find?_cons_of_neg _ (by simp [h])]
    · rw [GetFirstEnv, if_pos h,
        List.find?_cons_of_pos _ (by simp [List.isEmpty_iff, h])]

/-! ### Errors

Go `error` values are modelled as flat lists of atomic causes: `[]` is the
nil error, `errors.Join` concatenates the atom lists of its arguments, and
wrapping with `fmt.Errorf` and a format containing a single error verb
keeps the wrapped error's atoms.  `errors.Is err sentinel` is membership of
the sentinel atom in the list.  The sentinels come from `errors.go`. -/

/-- Atomic error causes appearing in the loaders. -/
inductive ErrAtom where
  /-- `ErrEnvironmentProcess` from `errors.go`. -/
  | envProcess
  /-- `ErrInvalidPort` from `errors.go:41-44`. -/
  | invalidPort
  /-- `ErrMetadataFetch` from `errors.go`. -/
  | metadataFetch
  /-- A `strconv.ParseUint` failure, wrapped with a context message naming
  the offending variable (empty when joined without a message), carrying
  the offending input. -/
  | parseFail (context : String) (input : GoStr)
  /-- A failed metadata-server fetch wrapped by the per-field
  `fmt.Errorf` message, e.g. `failed to fetch region: cause`. -/
  | fetchFail (what : String) (cause : String)
  deriving DecidableEq, Repr

/-- A Go error value: the (flattened) list of atomic causes reachable by
`errors.Is` unwrapping; `[]` is the nil error. -/
abbrev GoError := List ErrAtom

/-! ### The metadata server and the field set -/

/-- The remote metadata-server endpoints contacted by the loaders. -/
inductive Endpoint where
  /-- `metadata.ProjectIDWithContext` (current project ID). -/
  | projectID
  /-- `metadata.GetWithContext ctx "instance/region"` (combined region and
  project-number endpoint). -/
  | instanceRegion
  /-- `metadata.NumericProjectIDWithContext` (dedicated numeric project-ID
  endpoint). -/
  | numericProjectID
  /-- `metadata.InstanceIDWithContext`. -/
  | instanceID
  /-- `metadata.EmailWithContext ctx "default"`. -/
  | email
  deriving DecidableEq, Repr

instance {ε α : Type} [DecidableEq ε] [DecidableEq α] : DecidableEq (Except ε α) := fun x y =>
  match x, y with
  | .ok a, .ok b =>
    if h : a = b then .isTrue (h ▸ rfl) else .isFalse (fun hh => h (Except.ok.inj hh))
  | .error a, .error b =>
    if h : a = b then .isTrue (h ▸ rfl) else .isFalse (fun hh => h (Except.error.inj hh))
  | .ok _, .error _ => .isFalse Except.noConfusion
  | .error _, .ok _ => .isFalse Except.noConfusion

/-- The instance metadata server, as observed through the five endpoints
the loaders may contact.  `Except.error msg` is a failed request (network
error, non-200, ...), `Except.ok body` a successful response body. -/
structure Server where
  projectID : Except String GoStr
  instanceRegion : Except String GoStr
  numericProjectID : Except String GoStr
  instanceID : Except String GoStr
  email : Except String GoStr

/-- `Metadata` from `metadata.go:172-187`: platform identity facts for the
running container instance.  The Go zero value has every field empty. -/
structure Metadata where
  ProjectID : GoStr := []
  ProjectNumber : GoStr := []
  Region : GoStr := []
  InstanceID : GoStr := []
  ServiceAccountEmail : GoStr := []
  deriving DecidableEq, Repr

/-- `MetadataField` is a bitmask over `uint` (`metadata.go:14`); the flag
constants follow.  Note `iota` is 1 at the `MetadataProjectID` const spec,
so the flags start at bit 1. -/
abbrev MetadataField := Nat

/-- `MetadataNone MetadataField = 0`. -/
def MetadataNone : MetadataField := 0

/-- `MetadataProjectID MetadataField = 1 << iota` with `iota = 1`. -/
def MetadataProjectID : MetadataField := 2

/-- `MetadataProjectNumber = 1 << 2`. -/
def MetadataProjectNumber : MetadataField := 4

/-- `MetadataRegion = 1 << 3`. -/
def MetadataRegion : MetadataField := 8

/-- `MetadataInstanceID = 1 << 4`. -/
def MetadataInstanceID : MetadataField := 16

/-- `MetadataServiceAccountEmail = 1 << 5`. -/
def MetadataServiceAccountEmail : MetadataField := 32

/-- `MetadataAll = ^MetadataField(0)`: all ones of a 64-bit `uint`. -/
def MetadataAll : MetadataField := 2 ^ 64 - 1

/-! ### Response parsing helpers

`strings.IndexByte` / `strings.LastIndexByte` and the Go slicing performed
on the `instance/region` response body. -/

/-- `strings.IndexByte`: index of the first occurrence of `c`, or `-1`. -/
def indexByte (s : GoStr) (c : Char) : Int :=
  match s with
  | [] => -1
  | a :: t =>
    if a = c then 0
    else
      let r := indexByte t c
      if r < 0 then -1 else r + 1

/-- `strings.LastIndexByte`: index of the last occurrence of `c`, or
`-1`. -/
def lastIndexByte (s : GoStr) (c : Char) : Int :=
  let r := indexByte s.reverse c
  if r < 0 then -1 else (s.length : Int) - 1 - r

/-- `res[strings.LastIndexByte(res, '/')+1:]` — the trailing path segment
of the `instance/region` response (`metadata.go:229`). -/
def regionNameOf (res : GoStr) : GoStr :=
  res.drop (lastIndexByte res '/' + 1).toNat

/-- `res[9 : strings.IndexByte(res[9:], '/')+9]` — the segment of the
`instance/region` response between `projects/` (whose length is 9) and the
next slash (`metadata.go:233-234`).  When the remainder holds no slash the
Go code panics on the reversed slice bounds; the model returns the empty
string there (no claim touches that input). -/
def projectNumberOf (res : GoStr) : GoStr :=
  let rest := res.drop 9
  let i := indexByte rest '/'
  if i < 0 then [] else rest.take i.toNat

/-! ### Concurrent fetch tasks

Each `g.Go` call spawns a task that either fails with an atomic cause or
writes its designated (disjoint) result fields. -/

/-- A spawned fetch task: the endpoint it contacts, and its outcome —
a per-field error atom, or a write to its designated result fields. -/
abbrev FetchTask := Endpoint × Except ErrAtom (Metadata → Metadata)

/-- The writes of the successfully completed tasks, applied in order;
a failed task returns before writing anything. -/
def runWrites (cfg : Metadata) (ts : List FetchTask) : Metadata :=
  ts.foldl (fun c t => match t.2 with | .ok f => f c | .error _ => c) cfg

/-- `errgroup.Group.Wait`: the error of the first failing task (modelled
in spawn order), or `none` when every task succeeded. -/
def firstFailure (ts : List FetchTask) : Option ErrAtom :=
  ts.findSome? (fun t => match t.2 with | .error e => some e | .ok _ => none)

/-- The `for _, x := range xs { if x != "" { field = x; break } }` loop
shared by every `WithDefault*` option builder: the first non-empty
candidate replaces the current value, otherwise it is kept. -/
def setFirstNonempty (cur : GoStr) (xs : List GoStr) : GoStr :=
  match xs.find? (fun x => !x.isEmpty) with
  | some x => x
  | none => cur

/-- The goroutine body fetching the project ID and writing it into
`cfg.ProjectID` (`metadata.go:208-215`, `job.go:582-590`). -/
def projectIDTask (srv : Server) : FetchTask :=
  (.projectID,
    match srv.projectID with
    | .error e => .error (.fetchFail "project ID" e)
    | .ok v => .ok (fun cfg => { cfg with ProjectID := v }))

/-- The goroutine body fetching `instance/region`, writing the trailing
path segment into `cfg.Region`, and, when `cfg.ProjectNumber` is still
empty and the project number was requested, writing the parsed numeric
segment into `cfg.ProjectNumber` (`metadata.go:223-238`,
`job.go:595-610`). -/
def regionTask (srv : Server) (metadataFields : MetadataField) : FetchTask :=
  (.instanceRegion,
    match srv.instanceRegion with
    | .error e => .error (.fetchFail "region" e)
    | .ok res => .ok (fun cfg =>
        let cfg := { cfg with Region := regionNameOf res }
        if cfg.ProjectNumber = [] ∧ metadataFields &&& MetadataProjectNumber ≠ 0 then
          { cfg with ProjectNumber := projectNumberOf res }
        else cfg))

/-- The goroutine body fetching the numeric project ID and writing it into
`cfg.ProjectNumber` (`metadata.go:241-248`, `job.go:612-619`). -/
def numericProjectIDTask (srv : Server) : FetchTask :=
  (.numericProjectID,
    match srv.numericProjectID with
    | .error e => .error (.fetchFail "project number" e)
    | .ok v => .ok (fun cfg => { cfg with ProjectNumber := v }))

/-- The goroutine body fetching the instance ID and writing it into
`cfg.InstanceID` (`metadata.go:255-262`, `job.go:623-630`). -/
def instanceIDTask (srv : Server) : FetchTask :=
  (.instanceID,
    match srv.instanceID with
    | .error e => .error (.fetchFail "instance ID" e)
    | .ok v => .ok (fun cfg => { cfg with InstanceID := v }))

/-- The goroutine body fetching the default service account email and
writing it into `cfg.ServiceAccountEmail` (`metadata.go:268-275`,
`job.go:634-641`). -/
def emailTask (srv : Server) : FetchTask :=
  (.email,
    match srv.email with
    | .error e => .error (.fetchFail "service account email" e)
    | .ok v => .ok (fun cfg => { cfg with ServiceAccountEmail := v }))

/-- The result of a `LoadMetadata` call: the returned `*Metadata` (`none`
is the nil pointer), the returned `error` (`[]` is nil), and the remote
fetches spawned, in spawn order. -/
structure LoadResult where
  res : Option Metadata
  err : GoError
  fetches : List Endpoint
  deriving Repr

/-! ## `src/metadata.go` — the options-based `LoadMetadata`

The variant of the loader in the file `metadata.go`: environment-variable
candidate lists seed `metadataLoadOptions` defaults, option builders may
replace them, and each field is then either fetched remotely (when its
flag is set) or filled from the default (when it is not). -/

namespace MetadataGo

/-- `EnvProjectID` (`metadata.go:45`). -/
def EnvProjectID : List GoStr :=
  [str "CLOUDSDK_CORE_PROJECT", str "GOOGLE_CLOUD_PROJECT", str "GCP_PROJECT_ID"]

/-- `EnvProjectNumber` (`metadata.go:52`). -/
def EnvProjectNumber : List GoStr := [str "GCP_PROJECT_NUMBER"]

/-- `EnvRegion` (`metadata.go:59`). -/
def EnvRegion : List GoStr := [str "CLOUDSDK_COMPUTE_REGION", str "GCP_REGION"]

/-- `EnvInstanceID` (`metadata.go:66`). -/
def EnvInstanceID : List GoStr := [str "CLOUD_RUN_INSTANCE_ID"]

/-- `EnvServiceAccountEmail` (`metadata.go:73`). -/
def EnvServiceAccountEmail : List GoStr := [str "GOOGLE_SERVICE_ACCOUNT_EMAIL"]

/-- `metadataLoadOptions` (`metadata.go:76-82`). -/
structure metadataLoadOptions where
  defaultProjectID : GoStr
  defaultProjectNumber : GoStr
  defaultRegion : GoStr
  defaultInstanceID : GoStr
  defaultServiceAccountEmail : GoStr
  deriving DecidableEq, Repr

/-- `defaultMetadataLoadOptions` (`metadata.go:84-92`): seeds every
default from its environment-variable candidate list. -/
def defaultMetadataLoadOptions (env : Env) : metadataLoadOptions where
  defaultProjectID := GetFirstEnv env EnvProjectID
  defaultProjectNumber := GetFirstEnv env EnvProjectNumber
  defaultRegion := GetFirstEnv env EnvRegion
  defaultInstanceID := GetFirstEnv env EnvInstanceID
  defaultServiceAccountEmail := GetFirstEnv env EnvServiceAccountEmail

/-- The recognized `MetadataLoadOption` builders
(`metadata.go:94-164`). -/
inductive MetadataLoadOption where
  | withDefaultProjectID (projectIDs : List GoStr)
  | withDefaultProjectNumber (projectNumbers : List GoStr)
  | withDefaultRegion (regions : List GoStr)
  | withDefaultInstanceID (instanceIDs : List GoStr)
  | withDefaultServiceAccountEmail (serviceAccountEmails : List GoStr)

/-- Application of one option builder (each sets its field to the first
non-empty candidate, if any). -/
def applyOpt (o : metadataLoadOptions) : MetadataLoadOption → metadataLoadOptions
  | .withDefaultProjectID xs =>
      { o with defaultProjectID := setFirstNonempty o.defaultProjectID xs }
  | .withDefaultProjectNumber xs =>
      { o with defaultProjectNumber := setFirstNonempty o.defaultProjectNumber xs }
  | .withDefaultRegion xs =>
      { o with defaultRegion := setFirstNonempty o.defaultRegion xs }
  | .withDefaultInstanceID xs =>
      { o with defaultInstanceID := setFirstNonempty o.defaultInstanceID xs }
  | .withDefaultServiceAccountEmail xs =>
      { o with defaultServiceAccountEmail := setFirstNonempty o.defaultServiceAccountEmail xs }

/-- The resolved load options: defaults from the environment, then the
option builders applied in order (`metadata.go:200-203`). -/
def resolvedOpts (env : Env) (opts : List MetadataLoadOption) : metadataLoadOptions :=
  opts.foldl applyOpt (defaultMetadataLoadOptions env)

/-- The `else`-branch assignments performed by the main goroutine of
`LoadMetadata` before `g.Wait` (`metadata.go:216-218,239-252,263-265,
276-278`): every field whose flag is not set is filled from the resolved
defaults — except that `cfg.ProjectNumber` is left untouched (empty) when
the region is requested, since the `else if`/`else` chain at
`metadata.go:239-252` is skipped entirely in that case. -/
def mainAssigns (env : Env) (metadataFields : MetadataField)
    (opts : List MetadataLoadOption) : Metadata :=
  let loadOpts := resolvedOpts env opts
  let cfg0 : Metadata := {}
  let cfg1 := if metadataFields &&& MetadataProjectID ≠ 0 then cfg0
    else { cfg0 with ProjectID := loadOpts.defaultProjectID }
  let cfg2 := if metadataFields &&& MetadataRegion ≠ 0 then cfg1
    else if metadataFields &&& MetadataProjectNumber ≠ 0 then
      { cfg1 with Region := loadOpts.defaultRegion }
    else
      { cfg1 with Region := loadOpts.defaultRegion,
                  ProjectNumber := loadOpts.defaultProjectNumber }
  let cfg3 := if metadataFields &&& MetadataInstanceID ≠ 0 then cfg2
    else { cfg2 with InstanceID := loadOpts.defaultInstanceID }
  if metadataFields &&& MetadataServiceAccountEmail ≠ 0 then cfg3
  else { cfg3 with ServiceAccountEmail := loadOpts.defaultServiceAccountEmail }

/-- The task (if any) spawned at `metadata.go:207-215` for the project
ID. -/
def tasksPID (srv : Server) (metadataFields : MetadataField) : List FetchTask :=
  if metadataFields &&& MetadataProjectID ≠ 0 then [projectIDTask srv] else []

/-- The task (if any) spawned at `metadata.go:222-248` for the region and
project-number group: the combined region task when the region is
requested, else the dedicated numeric-project-ID task when the project
number is requested, else nothing. -/
def tasksRegion (srv : Server) (metadataFields : MetadataField) : List FetchTask :=
  if metadataFields &&& MetadataRegion ≠ 0 then [regionTask srv metadataFields]
  else if metadataFields &&& MetadataProjectNumber ≠ 0 then [numericProjectIDTask srv]
  else []

/-- The task (if any) spawned at `metadata.go:254-262` for the instance
ID. -/
def tasksIID (srv : Server) (metadataFields : MetadataField) : List FetchTask :=
  if metadataFields &&& MetadataInstanceID ≠ 0 then [instanceIDTask srv] else []

/-- The task (if any) spawned at `metadata.go:267-275` for the service
account email. -/
def tasksEmail (srv : Server) (metadataFields : MetadataField) : List FetchTask :=
  if metadataFields &&& MetadataServiceAccountEmail ≠ 0 then [emailTask srv] else []

/-- The `g.Go` tasks spawned by `LoadMetadata`, in spawn order: one per
requested field, with region and project number sharing the combined task
when the region is requested (`metadata.go:207,222-248,254,267`). -/
def tasks (srv : Server) (metadataFields : MetadataField) : List FetchTask :=
  tasksPID srv metadataFields ++ tasksRegion srv metadataFields
    ++ tasksIID srv metadataFields ++ tasksEmail srv metadataFields

/-- `LoadMetadata` (`metadata.go:198-285`).  The main goroutine fills
unrequested fields from the resolved defaults (`mainAssigns`) and spawns
one fetch task per requested field group (`tasks`); `g.Wait` surfaces the
first failure joined under `ErrMetadataFetch`, in which case the nil
pointer is returned, otherwise the merged record is returned. -/
def LoadMetadata (srv : Server) (env : Env) (metadataFields : MetadataField)
    (opts : List MetadataLoadOption) : LoadResult :=
  let ts := tasks srv metadataFields
  match firstFailure ts with
  | some e => { res := none, err := [.metadataFetch, e], fetches := ts.map (·.1) }
  | none =>
    { res := some (runWrites (mainAssigns env metadataFields opts) ts)
      err := []
      fetches := ts.map (·.1) }

end MetadataGo

/-! ## `src/job.go:98-441` — the `Reload`/`EnvDecode` metadata variant

The variant whose `LoadMetadata` seeds a record with environment defaults
and then calls `Metadata.Reload`, and whose `Metadata.EnvDecode`
implements the `envconfig.DecoderCtx` reload-into-existing-record mode. -/

namespace ReloadVariant

/-- `EnvProjectID` (`job.go:142`). -/
def EnvProjectID : List GoStr :=
  [str "CLOUDSDK_CORE_PROJECT", str "GOOGLE_CLOUD_PROJECT_ID", str "GCP_PROJECT_ID"]

/-- `EnvProjectNumber` (`job.go:149`). -/
def EnvProjectNumber : List GoStr :=
  [str "GOOGLE_CLOUD_PROJECT_NUMBER", str "GCP_PROJECT_NUMBER"]

/-- `EnvRegion` (`job.go:156`). -/
def EnvRegion : List GoStr :=
  [str "CLOUDSDK_COMPUTE_REGION", str "GOOGLE_CLOUD_REGION", str "GCP_REGION"]

/-- `EnvInstanceID` (`job.go:163`). -/
def EnvInstanceID : List GoStr := [str "CLOUD_RUN_INSTANCE_ID"]

/-- `EnvServiceAccountEmail` (`job.go:170`). -/
def EnvServiceAccountEmail : List GoStr := [str "GOOGLE_SERVICE_ACCOUNT_EMAIL"]

/-- `defaultMetadata` (`job.go:196-204`): a record seeded with the first
non-empty value of each field's environment candidate list. -/
def defaultMetadata (env : Env) : Metadata where
  ProjectID := GetFirstEnv env EnvProjectID
  ProjectNumber := GetFirstEnv env EnvProjectNumber
  Region := GetFirstEnv env EnvRegion
  InstanceID := GetFirstEnv env EnvInstanceID
  ServiceAccountEmail := GetFirstEnv env EnvServiceAccountEmail

/-- The goroutine body at `job.go:327-342`: fetch `instance/region`,
write the region, and — when the project number is requested — write the
parsed numeric segment unconditionally (this variant has no
`ProjectNumber == ""` guard). -/
def regionTask (srv : Server) (metadataFields : MetadataField) : FetchTask :=
  (.instanceRegion,
    match srv.instanceRegion with
    | .error e => .error (.fetchFail "region" e)
    | .ok res => .ok (fun cfg =>
        let cfg := { cfg with Region := regionNameOf res }
        if metadataFields &&& MetadataProjectNumber ≠ 0 then
          { cfg with ProjectNumber := projectNumberOf res }
        else cfg))

/-- The task (if any) spawned at `job.go:313-322` for the project ID. -/
def tasksPID (srv : Server) (metadataFields : MetadataField) : List FetchTask :=
  if metadataFields &&& MetadataProjectID ≠ 0 then [projectIDTask srv] else []

/-- The task (if any) spawned at `job.go:326-352` for the region and
project-number group. -/
def tasksRegion (srv : Server) (metadataFields : MetadataField) : List FetchTask :=
  if metadataFields &&& MetadataRegion ≠ 0 then [regionTask srv metadataFields]
  else if metadataFields &&& MetadataProjectNumber ≠ 0 then [numericProjectIDTask srv]
  else []

/-- The task (if any) spawned at `job.go:354-363` for the instance ID. -/
def tasksIID (srv : Server) (metadataFields : MetadataField) : List FetchTask :=
  if metadataFields &&& MetadataInstanceID ≠ 0 then [instanceIDTask srv] else []

/-- The task (if any) spawned at `job.go:365-374` for the service account
email. -/
def tasksEmail (srv : Server) (metadataFields : MetadataField) : List FetchTask :=
  if metadataFields &&& MetadataServiceAccountEmail ≠ 0 then [emailTask srv] else []

/-- The `g.Go` tasks spawned by `Metadata.Reload`, in spawn order
(`job.go:313-374`): one per requested field, the combined region task
replacing the dedicated project-number task when the region is
requested.  This variant spawns nothing for unrequested fields and has no
`else` assignments. -/
def tasks (srv : Server) (metadataFields : MetadataField) : List FetchTask :=
  tasksPID srv metadataFields ++ tasksRegion srv metadataFields
    ++ tasksIID srv metadataFields ++ tasksEmail srv metadataFields

/-- The result of a `Metadata.Reload` call: the record after the call
(the receiver is mutated in place; on failure the successful tasks'
writes have still landed), the returned error, and the spawned
fetches. -/
structure ReloadResult where
  m : Metadata
  err : GoError
  fetches : List Endpoint
  deriving Repr

/-- `Metadata.Reload` (`job.go:310-381`): spawn one fetch task per
requested field group, wait for all, and join the first failure under
`ErrMetadataFetch`. -/
def Reload (srv : Server) (metadataFields : MetadataField) (m : Metadata) : ReloadResult :=
  let ts := tasks srv metadataFields
  { m := runWrites m ts
    err := match firstFailure ts with
      | some e => [.metadataFetch, e]
      | none => []
    fetches := ts.map (·.1) }

/-- The field set accumulated by `Metadata.EnvDecode` (`job.go:396-441`):
each of the five source `if` blocks adds its field's flag exactly when
the receiver's field is empty and its environment default is empty
too. -/
def envDecodeFields (env : Env) (m : Metadata) : MetadataField :=
  let defaults := defaultMetadata env
  let f1 := if m.ProjectID = [] ∧ defaults.ProjectID = [] then
      MetadataNone ||| MetadataProjectID else MetadataNone
  let f2 := if m.ProjectNumber = [] ∧ defaults.ProjectNumber = [] then
      f1 ||| MetadataProjectNumber else f1
  let f3 := if m.Region = [] ∧ defaults.Region = [] then
      f2 ||| MetadataRegion else f2
  let f4 := if m.InstanceID = [] ∧ defaults.InstanceID = [] then
      f3 ||| MetadataInstanceID else f3
  if m.ServiceAccountEmail = [] ∧ defaults.ServiceAccountEmail = [] then
    f4 ||| MetadataServiceAccountEmail else f4

/-- The receiver updates performed by `Metadata.EnvDecode`
(`job.go:396-441`): each of the five source `if` blocks copies the
non-empty environment default into the receiver exactly when the
receiver's field is empty. -/
def envDecodeFill (env : Env) (m : Metadata) : Metadata :=
  let defaults := defaultMetadata env
  let m1 := if m.ProjectID = [] ∧ defaults.ProjectID ≠ [] then
      { m with ProjectID := defaults.ProjectID } else m
  let m2 := if m.ProjectNumber = [] ∧ defaults.ProjectNumber ≠ [] then
      { m1 with ProjectNumber := defaults.ProjectNumber } else m1
  let m3 := if m.Region = [] ∧ defaults.Region ≠ [] then
      { m2 with Region := defaults.Region } else m2
  let m4 := if m.InstanceID = [] ∧ defaults.InstanceID ≠ [] then
      { m3 with InstanceID := defaults.InstanceID } else m3
  if m.ServiceAccountEmail = [] ∧ defaults.ServiceAccountEmail ≠ [] then
    { m4 with ServiceAccountEmail := defaults.ServiceAccountEmail } else m4

/-- `Metadata.EnvDecode` (`job.go:396-441`): for each field of the
receiver that is still empty, either copy the non-empty environment
default (`envDecodeFill`) or mark the field for fetching
(`envDecodeFields`), then `Reload` with exactly the marked fields.  The
source interleaves the two accumulations in one pass; split here into
the two independent chains. -/
def EnvDecode (srv : Server) (env : Env) (m : Metadata) : ReloadResult :=
  Reload srv (envDecodeFields env m) (envDecodeFill env m)

end ReloadVariant

/-! ## `src/job.go:442-649` — the environment-first `LoadMetadata`

The historical variant in which a non-empty environment value always wins
and suppresses the remote fetch for its field, even when the field is
requested. -/

namespace EnvFirstVariant

/-- The `Env*` package variables of this variant may be a single name or
a fallback list (`job.go:481-515`). -/
inductive EnvKeys where
  | one (k : GoStr)
  | many (ks : List GoStr)

/-- `getEnv` (`job.go:522-535`): a single name reads directly; a list
returns the first non-empty value, or empty. -/
def getEnv (env : Env) : EnvKeys → GoStr
  | .one k => env k
  | .many ks => GetFirstEnv env ks

/-- `EnvProjectID` (`job.go:487`). -/
def EnvProjectID : EnvKeys :=
  .many [str "CLOUDSDK_CORE_PROJECT", str "GOOGLE_CLOUD_PROJECT", str "GCP_PROJECT_ID"]

/-- `EnvProjectNumber` (`job.go:494`). -/
def EnvProjectNumber : EnvKeys := .one (str "GCP_PROJECT_NUMBER")

/-- `EnvRegion` (`job.go:500`). -/
def EnvRegion : EnvKeys := .many [str "CLOUDSDK_COMPUTE_REGION", str "GCP_REGION"]

/-- `EnvInstanceID` (`job.go:507`). -/
def EnvInstanceID : EnvKeys := .one (str "CLOUD_RUN_INSTANCE_ID")

/-- `EnvServiceAccountEmail` (`job.go:514`). -/
def EnvServiceAccountEmail : EnvKeys := .one (str "GOOGLE_SERVICE_ACCOUNT_EMAIL")

/-- The record seeded from the environment before any fetch
(`job.go:566-578`). -/
def envSeed (env : Env) : Metadata where
  ProjectID := getEnv env EnvProjectID
  ProjectNumber := getEnv env EnvProjectNumber
  Region := getEnv env EnvRegion
  InstanceID := getEnv env EnvInstanceID
  ServiceAccountEmail := getEnv env EnvServiceAccountEmail

/-- The `g.Go` tasks spawned by this variant (`job.go:581-642`): a fetch
is issued only for a field that is both requested and still empty after
the environment seeding. -/
def tasks (srv : Server) (cfg : Metadata) (metadataFields : MetadataField) : List FetchTask :=
  (if cfg.ProjectID = [] ∧ metadataFields &&& MetadataProjectID ≠ 0 then
      [projectIDTask srv] else [])
    ++ (if cfg.Region = [] ∧ metadataFields &&& MetadataRegion ≠ 0 then
          [regionTask srv metadataFields]
        else if cfg.ProjectNumber = [] ∧ metadataFields &&& MetadataProjectNumber ≠ 0 then
          [numericProjectIDTask srv]
        else [])
    ++ (if cfg.InstanceID = [] ∧ metadataFields &&& MetadataInstanceID ≠ 0 then
          [instanceIDTask srv] else [])
    ++ (if cfg.ServiceAccountEmail = [] ∧ metadataFields &&& MetadataServiceAccountEmail ≠ 0 then
          [emailTask srv] else [])

/-- `LoadMetadata` (`job.go:565-649`): seed every field from the
environment, fetch only the requested-and-unresolved ones, join the first
failure under `ErrMetadataFetch` (returning the nil pointer), otherwise
return the merged record. -/
def LoadMetadata (srv : Server) (env : Env) (metadataFields : MetadataField) : LoadResult :=
  let cfg := envSeed env
  let ts := tasks srv cfg metadataFields
  match firstFailure ts with
  | some e => { res := none, err := [.metadataFetch, e], fetches := ts.map (·.1) }
  | none => { res := some (runWrites cfg ts), err := [], fetches := ts.map (·.1) }

end EnvFirstVariant

/-- `strconv.ParseUint(s, 10, bitSize)`: no sign prefix is permitted, the
string must be a non-empty run of decimal digits, and the value must fit
in `bitSize` bits (on overflow Go returns `ErrRange` together with the
clamped maximum, which every caller here discards). -/
def parseUint (s : GoStr) (bitSize : Nat) : Except Unit Nat :=
  if s = [] then .error ()
  else if s.all (·.isDigit) then
    let n := s.foldl (fun a c => a * 10 + (c.toNat - 48)) 0
    if n < 2 ^ bitSize then .ok n else .error ()
  else .error ()

/-! ## `src/service.go:1-196` — the `Service` loader -/

namespace ServiceGo

/-- `Service` (`service.go:17-34`): listen port plus identity strings.
`Port` is a `uint16`; the parse below never stores a value outside
`0..65535`. -/
structure Service where
  Port : Nat := 0
  Name : GoStr := []
  Revision : GoStr := []
  Configuration : GoStr := []
  deriving DecidableEq, Repr

/-- `defaultService` (`service.go:36-40`): port 8080, identifiers
empty. -/
def defaultService : Service := { Port := 8080 }

/-- The recognized `ServiceLoadOption` builders (`service.go:42-117`). -/
inductive ServiceLoadOption where
  | withDefaultPort (ports : List Nat)
  | withDefaultPortString (portStrings : List GoStr)
  | withDefaultServiceName (names : List GoStr)
  | withDefaultRevision (revisions : List GoStr)
  | withDefaultConfiguration (configurations : List GoStr)

/-- The loop of `WithDefaultPortString` (`service.go:63-75`): the first
candidate that is non-empty, parses as a `uint16`, and is non-zero wins;
all others are skipped. -/
def firstValidPort (portStrings : List GoStr) : Option Nat :=
  portStrings.findSome? (fun v =>
    if v = [] then none
    else match parseUint v 16 with
      | .ok p => if p ≠ 0 then some p else none
      | .error _ => none)

/-- Application of one option builder. `WithDefaultPort` takes the first
non-zero candidate (`service.go:48-57`); the string builders take the
first non-empty candidate. -/
def applyOpt (s : Service) : ServiceLoadOption → Service
  | .withDefaultPort ps =>
      match ps.find? (fun p => p ≠ 0) with
      | some p => { s with Port := p }
      | none => s
  | .withDefaultPortString ss =>
      match firstValidPort ss with
      | some p => { s with Port := p }
      | none => s
  | .withDefaultServiceName xs => { s with Name := setFirstNonempty s.Name xs }
  | .withDefaultRevision xs => { s with Revision := setFirstNonempty s.Revision xs }
  | .withDefaultConfiguration xs =>
      { s with Configuration := setFirstNonempty s.Configuration xs }

/-- `Service.Reload` (`service.go:146-171`): overwrite the identity
fields with their environment values when those are non-empty, then parse
`PORT` when set — a parse failure yields
`errors.Join(ErrEnvironmentProcess, ErrInvalidPort, err)`, a parsed zero
yields an error wrapping only `ErrInvalidPort`, and otherwise the parsed
port is stored.  In Go the receiver is mutated and only an error is
returned; the model returns the final record on success (on the error
paths `LoadService` discards the receiver). -/
def Reload (env : Env) (s : Service) : Except GoError Service :=
  let s := if env (str "K_SERVICE") ≠ [] then { s with Name := env (str "K_SERVICE") } else s
  let s := if env (str "K_REVISION") ≠ [] then { s with Revision := env (str "K_REVISION") } else s
  let s := if env (str "K_CONFIGURATION") ≠ [] then
      { s with Configuration := env (str "K_CONFIGURATION") } else s
  if env (str "PORT") ≠ [] then
    match parseUint (env (str "PORT")) 16 with
    | .error _ => .error [.envProcess, .invalidPort, .parseFail "" (env (str "PORT"))]
    | .ok port =>
      if port = 0 then .error [.invalidPort]
      else .ok { s with Port := port }
  else .ok s

/-- `LoadService` (`service.go:124-139`): defaults, then the option
builders in call order, then `Reload`; a `Reload` error yields the nil
pointer. -/
def LoadService (env : Env) (opts : List ServiceLoadOption) : Except GoError Service :=
  Reload env (opts.foldl applyOpt defaultService)

end ServiceGo

/-! ## `src/job.go:1-97` and `src/options.go` — the `Job` loader -/

namespace JobGo

/-- `Job` (`job.go:14-44`): the embedded `Metadata` plus the job identity
and task counters (`uint` fields modelled as `Nat`). -/
structure Job where
  Metadata : Metadata := {}
  Name : GoStr := []
  Execution : GoStr := []
  TaskIndex : Nat := 0
  TaskAttempt : Nat := 0
  TaskCount : Nat := 0
  deriving DecidableEq, Repr

/-- The recognized `LoadOption` builders (`options.go`). -/
inductive LoadOption where
  | withMetadata (fields : MetadataField)
  | withDefaultPort (port : Nat)

/-- `loadOptions` (`options.go:7-10`). -/
structure loadOptions where
  requiredMetadata : MetadataField
  defaultPort : Nat

/-- `defaultOptions` (`options.go:12-17`): all metadata fields, port
8080. -/
def defaultOptions : loadOptions := { requiredMetadata := MetadataAll, defaultPort := 8080 }

/-- Application of one option builder (`options.go:21-34`). -/
def applyOpt (o : loadOptions) : LoadOption → loadOptions
  | .withMetadata fields => { o with requiredMetadata := fields }
  | .withDefaultPort p => { o with defaultPort := p }

/-- One `CLOUD_RUN_TASK_*` block of `LoadJob` (`job.go:61-83`): an unset
variable keeps the zero value; a set one must parse as an unsigned 32-bit
integer, a failure yielding `errors.Join(ErrEnvironmentProcess, ...)`
with a message naming the variable. -/
def parseTaskVar (env : Env) (name : String) : Except GoError Nat :=
  let v := env (str name)
  if v = [] then .ok 0
  else match parseUint v 32 with
    | .ok n => .ok n
    | .error _ =>
      .error [.envProcess, .parseFail ("invalid " ++ name ++ " value") v]

/-- `LoadJob` (`job.go:55-97`): read the job identity and task counters
from the environment (each parse failure returning early), apply the
options, delegate to the environment-first `LoadMetadata` of the same
package snapshot (`job.go:565-649`), and join any metadata failure once
more under `ErrMetadataFetch`. -/
def LoadJob (srv : Server) (env : Env) (opts : List LoadOption) : Except GoError Job :=
  match parseTaskVar env "CLOUD_RUN_TASK_INDEX" with
  | .error e => .error e
  | .ok taskIndex =>
    match parseTaskVar env "CLOUD_RUN_TASK_ATTEMPT" with
    | .error e => .error e
    | .ok taskAttempt =>
      match parseTaskVar env "CLOUD_RUN_TASK_COUNT" with
      | .error e => .error e
      | .ok taskCount =>
        let loadOpts := opts.foldl applyOpt defaultOptions
        let r := EnvFirstVariant.LoadMetadata srv env loadOpts.requiredMetadata
        if r.err ≠ [] then
          .error (.metadataFetch :: r.err)
        else
          .ok { Metadata := r.res.getD {}
                Name := env (str "CLOUD_RUN_JOB")
                Execution := env (str "CLOUD_RUN_EXECUTION")
                TaskIndex := taskIndex
                TaskAttempt := taskAttempt
                TaskCount := taskCount }

end JobGo

/-! ## Concrete fixtures used to evaluate the models on closed inputs -/

/-- The error component of a Go `(value, error)` return: the error list of
the `error` branch, nil (`[]`) on success. -/
def errOf {α : Type} : Except GoError α → GoError
  | .error e => e
  | .ok _ => []

/-- An environment with every variable unset. -/
def envEmpty : Env := fun _ => []

/-- An environment that sets only `CLOUDSDK_CORE_PROJECT`, the first
project-ID override candidate. -/
def envProjOverride : Env :=
  fun k => if k = str "CLOUDSDK_CORE_PROJECT" then str "env-project" else []

/-- An environment that sets only `PORT=abc`. -/
def envPortAbc : Env := fun k => if k = str "PORT" then str "abc" else []

/-- An environment that sets only `PORT=0`. -/
def envPortZero : Env := fun k => if k = str "PORT" then str "0" else []

/-- A metadata server for which every request succeeds. -/
def srvAllOk : Server where
  projectID := .ok (str "srv-proj")
  instanceRegion := .ok (str "projects/123/regions/us-east1")
  numericProjectID := .ok (str "456")
  instanceID := .ok (str "inst-1")
  email := .ok (str "sa@example.com")

/-- A metadata server for which every request fails. -/
def srvAllFail : Server where
  projectID := .error "project boom"
  instanceRegion := .error "region boom"
  numericProjectID := .error "number boom"
  instanceID := .error "instance boom"
  email := .error "email boom"

/-- A metadata server for which exactly the `instance/region` and
instance-ID requests fail. -/
def srvTwoFail : Server where
  projectID := .ok (str "srv-proj")
  instanceRegion := .error "region boom"
  numericProjectID := .ok (str "456")
  instanceID := .error "instance boom"
  email := .ok (str "sa@example.com")

/-- The metadata record `srvAllOk` yields when every field is fetched. -/
def mdAllOk : Metadata where
  ProjectID := str "srv-proj"
  ProjectNumber := str "123"
  Region := str "us-east1"
  InstanceID := str "inst-1"
  ServiceAccountEmail := str "sa@example.com"

/-- The job record `LoadJob` yields for `srvAllOk` and an empty
environment. -/
def jobAllOk : JobGo.Job := { Metadata := mdAllOk }

/-- A prior metadata record whose only non-empty field is `ProjectID`. -/
def mdKeep : Metadata := { ProjectID := str "keep-me" }

/-! ## Infrastructure lemmas: task lists, joins, and writes -/

theorem runWrites_nil (cfg : Metadata) : runWrites cfg [] = cfg := rfl

theorem runWrites_cons (cfg : Metadata) (t : FetchTask) (ts : List FetchTask) :
    runWrites cfg (t :: ts) =
      runWrites (match t.2 with | .ok f => f cfg | .error _ => cfg) ts := rfl

theorem runWrites_append (cfg : Metadata) (a b : List FetchTask) :
    runWrites cfg (a ++ b) = runWrites (runWrites cfg a) b := by
  simp [runWrites, List.foldl_append]

/-- A projection untouched by every write of a task list is untouched by
the whole run. -/
theorem runWrites_proj {α : Type} (proj : Metadata → α) (ts : List FetchTask)
    (h : ∀ t ∈ ts, ∀ f, t.2 = .ok f → ∀ c, proj (f c) = proj c) :
    ∀ cfg, proj (runWrites cfg ts) = proj cfg := by
  induction ts with
  | nil => intro cfg; rfl
  | cons t ts ih =>
    intro cfg
    rw [runWrites_cons]
    cases ht : t.2 with
    | error e =>
      exact ih (fun u hu => h u (List.mem_cons_of_mem _ hu)) cfg
    | ok f =>
      rw [ih (fun u hu => h u (List.mem_cons_of_mem _ hu)) (f cfg)]
      exact h t (List.mem_cons_self t ts) f ht cfg

theorem firstFailure_cons (t : FetchTask) (ts : List FetchTask) :
    firstFailure (t :: ts) =
      match t.2 with | .error e => some e | .ok _ => firstFailure ts := by
  cases ht : t.2 <;> simp [firstFailure, List.findSome?_cons, ht]

theorem firstFailure_append_eq_none (a b : List FetchTask) :
    firstFailure (a ++ b) = none ↔ firstFailure a = none ∧ firstFailure b = none := by
  induction a with
  | nil => simp [firstFailure]
  | cons t a ih =>
    rw [List.cons_append, firstFailure_cons, firstFailure_cons]
    cases ht : t.2 <;> simp [ih]

theorem firstFailure_singleton_eq_none (t : FetchTask) :
    firstFailure [t] = none ↔ ∃ f, t.2 = .ok f := by
  rw [firstFailure_cons]
  cases ht : t.2 <;> simp [firstFailure]

/-! Per-task inversion lemmas: a task that did not fail is a successful
fetch whose write function is known explicitly. -/

theorem projectIDTask_ok_inv {srv : Server} (h : ∃ f, (projectIDTask srv).2 = .ok f) :
    ∃ v, srv.projectID = .ok v ∧
      (projectIDTask srv).2 = .ok (fun c => { c with ProjectID := v }) := by
  cases hs : srv.projectID with
  | error e => simp [projectIDTask, hs] at h
  | ok v => exact ⟨v, rfl, by simp [projectIDTask, hs]⟩

theorem regionTask_ok_inv {srv : Server} {F : MetadataField}
    (h : ∃ f, (regionTask srv F).2 = .ok f) :
    ∃ res, srv.instanceRegion = .ok res ∧
      (regionTask srv F).2 = .ok (fun c =>
        let c := { c with Region := regionNameOf res }
        if c.ProjectNumber = [] ∧ F &&& MetadataProjectNumber ≠ 0 then
          { c with ProjectNumber := projectNumberOf res }
        else c) := by
  cases hs : srv.instanceRegion with
  | error e => simp [regionTask, hs] at h
  | ok res => exact ⟨res, rfl, by simp [regionTask, hs]⟩

theorem numericProjectIDTask_ok_inv {srv : Server}
    (h : ∃ f, (numericProjectIDTask srv).2 = .ok f) :
    ∃ v, srv.numericProjectID = .ok v ∧
      (numericProjectIDTask srv).2 = .ok (fun c => { c with ProjectNumber := v }) := by
  cases hs : srv.numericProjectID with
  | error e => simp [numericProjectIDTask, hs] at h
  | ok v => exact ⟨v, rfl, by simp [numericProjectIDTask, hs]⟩

theorem instanceIDTask_ok_inv {srv : Server} (h : ∃ f, (instanceIDTask srv).2 = .ok f) :
    ∃ v, srv.instanceID = .ok v ∧
      (instanceIDTask srv).2 = .ok (fun c => { c with InstanceID := v }) := by
  cases hs : srv.instanceID with
  | error e => simp [instanceIDTask, hs] at h
  | ok v => exact ⟨v, rfl, by simp [instanceIDTask, hs]⟩

theorem emailTask_ok_inv {srv : Server} (h : ∃ f, (emailTask srv).2 = .ok f) :
    ∃ v, srv.email = .ok v ∧
      (emailTask srv).2 = .ok (fun c => { c with ServiceAccountEmail := v }) := by
  cases hs : srv.email with
  | error e => simp [emailTask, hs] at h
  | ok v => exact ⟨v, rfl, by simp [emailTask, hs]⟩

theorem RVregionTask_ok_inv {srv : Server} {F : MetadataField}
    (h : ∃ f, (ReloadVariant.regionTask srv F).2 = .ok f) :
    ∃ res, srv.instanceRegion = .ok res ∧
      (ReloadVariant.regionTask srv F).2 = .ok (fun c =>
        let c := { c with Region := regionNameOf res }
        if F &&& MetadataProjectNumber ≠ 0 then
          { c with ProjectNumber := projectNumberOf res }
        else c) := by
  cases hs : srv.instanceRegion with
  | error e => simp [ReloadVariant.regionTask, hs] at h
  | ok res => exact ⟨res, rfl, by simp [ReloadVariant.regionTask, hs]⟩

/-! Per-task frame lemmas: each task writes only its own designated
fields. -/

theorem projectIDTask_frame {srv : Server} {f : Metadata → Metadata}
    (h : (projectIDTask srv).2 = .ok f) (c : Metadata) :
    (f c).ProjectNumber = c.ProjectNumber ∧ (f c).Region = c.Region ∧
      (f c).InstanceID = c.InstanceID ∧
      (f c).ServiceAccountEmail = c.ServiceAccountEmail := by
  obtain ⟨v, -, hw⟩ := projectIDTask_ok_inv ⟨f, h⟩
  rw [h] at hw
  cases hw
  simp

theorem regionTask_frame {srv : Server} {F : MetadataField} {f : Metadata → Metadata}
    (h : (regionTask srv F).2 = .ok f) (c : Metadata) :
    (f c).ProjectID = c.ProjectID ∧ (f c).InstanceID = c.InstanceID ∧
      (f c).ServiceAccountEmail = c.ServiceAccountEmail := by
  obtain ⟨res, -, hw⟩ := regionTask_ok_inv ⟨f, h⟩
  rw [h] at hw
  cases hw
  dsimp only
  split <;> simp

theorem regionTask_frame_PN {srv : Server} {F : MetadataField} {f : Metadata → Metadata}
    (h : (regionTask srv F).2 = .ok f) (h4 : F &&& MetadataProjectNumber = 0)
    (c : Metadata) : (f c).ProjectNumber = c.ProjectNumber := by
  obtain ⟨res, -, hw⟩ := regionTask_ok_inv ⟨f, h⟩
  rw [h] at hw
  cases hw
  simp [h4]

theorem numericProjectIDTask_frame {srv : Server} {f : Metadata → Metadata}
    (h : (numericProjectIDTask srv).2 = .ok f) (c : Metadata) :
    (f c).ProjectID = c.ProjectID ∧ (f c).Region = c.Region ∧
      (f c).InstanceID = c.InstanceID ∧
      (f c).ServiceAccountEmail = c.ServiceAccountEmail := by
  obtain ⟨v, -, hw⟩ := numericProjectIDTask_ok_inv ⟨f, h⟩
  rw [h] at hw
  cases hw
  simp

theorem instanceIDTask_frame {srv : Server} {f : Metadata → Metadata}
    (h : (instanceIDTask srv).2 = .ok f) (c : Metadata) :
    (f c).ProjectID = c.ProjectID ∧ (f c).ProjectNumber = c.ProjectNumber ∧
      (f c).Region = c.Region ∧
      (f c).ServiceAccountEmail = c.ServiceAccountEmail := by
  obtain ⟨v, -, hw⟩ := instanceIDTask_ok_inv ⟨f, h⟩
  rw [h] at hw
  cases hw
  simp

theorem emailTask_frame {srv : Server} {f : Metadata → Metadata}
    (h : (emailTask srv).2 = .ok f) (c : Metadata) :
    (f c).ProjectID = c.ProjectID ∧ (f c).ProjectNumber = c.ProjectNumber ∧
      (f c).Region = c.Region ∧ (f c).InstanceID = c.InstanceID := by
  obtain ⟨v, -, hw⟩ := emailTask_ok_inv ⟨f, h⟩
  rw [h] at hw
  cases hw
  simp

theorem RVregionTask_frame {srv : Server} {F : MetadataField} {f : Metadata → Metadata}
    (h : (ReloadVariant.regionTask srv F).2 = .ok f) (c : Metadata) :
    (f c).ProjectID = c.ProjectID ∧ (f c).InstanceID = c.InstanceID ∧
      (f c).ServiceAccountEmail = c.ServiceAccountEmail := by
  obtain ⟨res, -, hw⟩ := RVregionTask_ok_inv ⟨f, h⟩
  rw [h] at hw
  cases hw
  dsimp only
  split <;> simp

theorem RVregionTask_frame_PN {srv : Server} {F : MetadataField} {f : Metadata → Metadata}
    (h : (ReloadVariant.regionTask srv F).2 = .ok f) (h4 : F &&& MetadataProjectNumber = 0)
    (c : Metadata) : (f c).ProjectNumber = c.ProjectNumber := by
  obtain ⟨res, -, hw⟩ := RVregionTask_ok_inv ⟨f, h⟩
  rw [h] at hw
  cases hw
  simp [h4]

/-! ## Structural lemmas about `MetadataGo.LoadMetadata` -/

namespace MetadataGo

theorem tasksPID_frame {srv : Server} {F : MetadataField} :
    ∀ t ∈ tasksPID srv F, ∀ f, t.2 = .ok f → ∀ c,
      (f c).ProjectNumber = c.ProjectNumber ∧ (f c).Region = c.Region ∧
        (f c).InstanceID = c.InstanceID ∧
        (f c).ServiceAccountEmail = c.ServiceAccountEmail := by
  intro t ht f hf c
  unfold tasksPID at ht
  split at ht
  · rw [List.mem_singleton] at ht
    subst ht
    exact projectIDTask_frame hf c
  · simp at ht

theorem tasksRegion_frame {srv : Server} {F : MetadataField} :
    ∀ t ∈ tasksRegion srv F, ∀ f, t.2 = .ok f → ∀ c,
      (f c).ProjectID = c.ProjectID ∧ (f c).InstanceID = c.InstanceID ∧
        (f c).ServiceAccountEmail = c.ServiceAccountEmail := by
  intro t ht f hf c
  unfold tasksRegion at ht
  split at ht
  · rw [List.mem_singleton] at ht
    subst ht
    exact regionTask_frame hf c
  · split at ht
    · rw [List.mem_singleton] at ht
      subst ht
      obtain ⟨a, b, c', d⟩ := numericProjectIDTask_frame hf c
      exact ⟨a, c', d⟩
    · simp at ht

theorem tasksRegion_frame_PN {srv : Server} {F : MetadataField}
    (h4 : F &&& MetadataProjectNumber = 0) :
    ∀ t ∈ tasksRegion srv F, ∀ f, t.2 = .ok f → ∀ c,
      (f c).ProjectNumber = c.ProjectNumber := by
  intro t ht f hf c
  unfold tasksRegion at ht
  split at ht
  · rw [List.mem_singleton] at ht
    subst ht
    exact regionTask_frame_PN hf h4 c
  · split at ht
    · simp_all
    · simp at ht

theorem tasksIID_frame {srv : Server} {F : MetadataField} :
    ∀ t ∈ tasksIID srv F, ∀ f, t.2 = .ok f → ∀ c,
      (f c).ProjectID = c.ProjectID ∧ (f c).ProjectNumber = c.ProjectNumber ∧
        (f c).Region = c.Region ∧
        (f c).ServiceAccountEmail = c.ServiceAccountEmail := by
  intro t ht f hf c
  unfold tasksIID at ht
  split at ht
  · rw [List.mem_singleton] at ht
    subst ht
    exact instanceIDTask_frame hf c
  · simp at ht

theorem tasksEmail_frame {srv : Server} {F : MetadataField} :
    ∀ t ∈ tasksEmail srv F, ∀ f, t.2 = .ok f → ∀ c,
      (f c).ProjectID = c.ProjectID ∧ (f c).ProjectNumber = c.ProjectNumber ∧
        (f c).Region = c.Region ∧ (f c).InstanceID = c.InstanceID := by
  intro t ht f hf c
  unfold tasksEmail at ht
  split at ht
  · rw [List.mem_singleton] at ht
    subst ht
    exact emailTask_frame hf c
  · simp at ht

theorem mainAssigns_ProjectID (env : Env) (F : MetadataField)
    (opts : List MetadataLoadOption) :
    (mainAssigns env F opts).ProjectID =
      if F &&& MetadataProjectID ≠ 0 then []
      else (resolvedOpts env opts).defaultProjectID := by
  unfold mainAssigns
  split_ifs <;> rfl

theorem mainAssigns_ProjectNumber (env : Env) (F : MetadataField)
    (opts : List MetadataLoadOption) :
    (mainAssigns env F opts).ProjectNumber =
      if F &&& MetadataRegion ≠ 0 then []
      else if F &&& MetadataProjectNumber ≠ 0 then []
      else (resolvedOpts env opts).defaultProjectNumber := by
  unfold mainAssigns
  split_ifs <;> rfl

theorem mainAssigns_Region (env : Env) (F : MetadataField)
    (opts : List MetadataLoadOption) :
    (mainAssigns env F opts).Region =
      if F &&& MetadataRegion ≠ 0 then []
      else (resolvedOpts env opts).defaultRegion := by
  unfold mainAssigns
  split_ifs <;> rfl

theorem mainAssigns_InstanceID (env : Env) (F : MetadataField)
    (opts : List MetadataLoadOption) :
    (mainAssigns env F opts).InstanceID =
      if F &&& MetadataInstanceID ≠ 0 then []
      else (resolvedOpts env opts).defaultInstanceID := by
  unfold mainAssigns
  split_ifs <;> rfl

theorem mainAssigns_Email (env : Env) (F : MetadataField)
    (opts : List MetadataLoadOption) :
    (mainAssigns env F opts).ServiceAccountEmail =
      if F &&& MetadataServiceAccountEmail ≠ 0 then []
      else (resolvedOpts env opts).defaultServiceAccountEmail := by
  unfold mainAssigns
  split_ifs <;> rfl

theorem LoadMetadata_fetches (srv : Server) (env : Env) (F : MetadataField)
    (opts : List MetadataLoadOption) :
    (LoadMetadata srv env F opts).fetches =
      (if F &&& MetadataProjectID ≠ 0 then [Endpoint.projectID] else [])
        ++ (if F &&& MetadataRegion ≠ 0 then [Endpoint.instanceRegion]
            else if F &&& MetadataProjectNumber ≠ 0 then [Endpoint.numericProjectID]
            else [])
        ++ (if F &&& MetadataInstanceID ≠ 0 then [Endpoint.instanceID] else [])
        ++ (if F &&& MetadataServiceAccountEmail ≠ 0 then [Endpoint.email] else []) := by
  have hmap : (tasks srv F).map (·.1) =
      (if F &&& MetadataProjectID ≠ 0 then [Endpoint.projectID] else [])
        ++ (if F &&& MetadataRegion ≠ 0 then [Endpoint.instanceRegion]
            else if F &&& MetadataProjectNumber ≠ 0 then [Endpoint.numericProjectID]
            else [])
        ++ (if F &&& MetadataInstanceID ≠ 0 then [Endpoint.instanceID] else [])
        ++ (if F &&& MetadataServiceAccountEmail ≠ 0 then [Endpoint.email] else []) := by
    unfold tasks tasksPID tasksRegion tasksIID tasksEmail
    split_ifs <;>
      simp [projectIDTask, regionTask, numericProjectIDTask, instanceIDTask, emailTask]
  cases hf : firstFailure (tasks srv F) <;>
    simp only [LoadMetadata, hf] <;> exact hmap

theorem LoadMetadata_res_some_inv {srv : Server} {env : Env} {F : MetadataField}
    {opts : List MetadataLoadOption} {m : Metadata}
    (h : (LoadMetadata srv env F opts).res = some m) :
    firstFailure (tasks srv F) = none ∧
      m = runWrites (mainAssigns env F opts) (tasks srv F) := by
  unfold LoadMetadata at h
  revert h
  cases hf : firstFailure (tasks srv F) <;> intro h <;> simp_all

/-- On success, `ProjectID` holds the fetched value when requested, and
the resolved default when not. -/
theorem result_ProjectID {srv : Server} {env : Env} {F : MetadataField}
    {opts : List MetadataLoadOption} {m : Metadata}
    (h : (LoadMetadata srv env F opts).res = some m) :
    (F &&& MetadataProjectID = 0 →
      m.ProjectID = (resolvedOpts env opts).defaultProjectID) ∧
    (F &&& MetadataProjectID ≠ 0 → srv.projectID = .ok m.ProjectID) := by
  obtain ⟨hf, hm⟩ := LoadMetadata_res_some_inv h
  unfold tasks at hf hm
  rw [firstFailure_append_eq_none, firstFailure_append_eq_none,
    firstFailure_append_eq_none] at hf
  obtain ⟨⟨⟨hf1, hf2⟩, hf3⟩, hf4⟩ := hf
  rw [runWrites_append, runWrites_append, runWrites_append] at hm
  subst hm
  rw [runWrites_proj (·.ProjectID) _
        (fun t ht f hfk c => (tasksEmail_frame t ht f hfk c).1),
      runWrites_proj (·.ProjectID) _
        (fun t ht f hfk c => (tasksIID_frame t ht f hfk c).1),
      runWrites_proj (·.ProjectID) _
        (fun t ht f hfk c => (tasksRegion_frame t ht f hfk c).1)]
  constructor
  · intro h2
    rw [show tasksPID srv F = [] by simp [tasksPID, h2], runWrites_nil,
      mainAssigns_ProjectID, if_neg (by simp [h2])]
  · intro h2
    have hpid : tasksPID srv F = [projectIDTask srv] := by simp [tasksPID, h2]
    rw [hpid] at hf1
    obtain ⟨v, hs, hw⟩ := projectIDTask_ok_inv ((firstFailure_singleton_eq_none _).1 hf1)
    have hrun : runWrites (mainAssigns env F opts) [projectIDTask srv] =
        { mainAssigns env F opts with ProjectID := v } := by
      rw [runWrites_cons, hw]
      rfl
    rw [hpid, hrun]
    exact hs

/-- On success, `InstanceID` holds the fetched value when requested, and
the resolved default when not. -/
theorem result_InstanceID {srv : Server} {env : Env} {F : MetadataField}
    {opts : List MetadataLoadOption} {m : Metadata}
    (h : (LoadMetadata srv env F opts).res = some m) :
    (F &&& MetadataInstanceID = 0 →
      m.InstanceID = (resolvedOpts env opts).defaultInstanceID) ∧
    (F &&& MetadataInstanceID ≠ 0 → srv.instanceID = .ok m.InstanceID) := by
  obtain ⟨hf, hm⟩ := LoadMetadata_res_some_inv h
  unfold tasks at hf hm
  rw [firstFailure_append_eq_none, firstFailure_append_eq_none,
    firstFailure_append_eq_none] at hf
  obtain ⟨⟨⟨hf1, hf2⟩, hf3⟩, hf4⟩ := hf
  rw [runWrites_append, runWrites_append, runWrites_append] at hm
  subst hm
  rw [runWrites_proj (·.InstanceID) _
        (fun t ht f hfk c => (tasksEmail_frame t ht f hfk c).2.2.2)]
  have hpre : (runWrites (runWrites (mainAssigns env F opts) (tasksPID srv F))
      (tasksRegion srv F)).InstanceID = (mainAssigns env F opts).InstanceID := by
    rw [runWrites_proj (·.InstanceID) _
          (fun t ht f hfk c => (tasksRegion_frame t ht f hfk c).2.1),
        runWrites_proj (·.InstanceID) _
          (fun t ht f hfk c => (tasksPID_frame t ht f hfk c).2.2.1)]
  constructor
  · intro h16
    rw [show tasksIID srv F = [] by simp [tasksIID, h16], runWrites_nil, hpre,
      mainAssigns_InstanceID, if_neg (by simp [h16])]
  · intro h16
    have hiid : tasksIID srv F = [instanceIDTask srv] := by simp [tasksIID, h16]
    rw [hiid] at hf3
    obtain ⟨v, hs, hw⟩ := instanceIDTask_ok_inv ((firstFailure_singleton_eq_none _).1 hf3)
    have hrun : ∀ c, runWrites c [instanceIDTask srv] = { c with InstanceID := v } := by
      intro c
      rw [runWrites_cons, hw]
      rfl
    rw [hiid, hrun]
    exact hs

/-- On success, `ServiceAccountEmail` holds the fetched value when
requested, and the resolved default when not. -/
theorem result_Email {srv : Server} {env : Env} {F : MetadataField}
    {opts : List MetadataLoadOption} {m : Metadata}
    (h : (LoadMetadata srv env F opts).res = some m) :
    (F &&& MetadataServiceAccountEmail = 0 →
      m.ServiceAccountEmail = (resolvedOpts env opts).defaultServiceAccountEmail) ∧
    (F &&& MetadataServiceAccountEmail ≠ 0 → srv.email = .ok m.ServiceAccountEmail) := by
  obtain ⟨hf, hm⟩ := LoadMetadata_res_some_inv h
  unfold tasks at hf hm
  rw [firstFailure_append_eq_none, firstFailure_append_eq_none,
    firstFailure_append_eq_none] at hf
  obtain ⟨⟨⟨hf1, hf2⟩, hf3⟩, hf4⟩ := hf
  rw [runWrites_append, runWrites_append, runWrites_append] at hm
  subst hm
  have hpre : (runWrites (runWrites (runWrites (mainAssigns env F opts)
      (tasksPID srv F)) (tasksRegion srv F)) (tasksIID srv F)).ServiceAccountEmail =
      (mainAssigns env F opts).ServiceAccountEmail := by
    rw [runWrites_proj (·.ServiceAccountEmail) _
          (fun t ht f hfk c => (tasksIID_frame t ht f hfk c).2.2.2),
        runWrites_proj (·.ServiceAccountEmail) _
          (fun t ht f hfk c => (tasksRegion_frame t ht f hfk c).2.2),
        runWrites_proj (·.ServiceAccountEmail) _
          (fun t ht f hfk c => (tasksPID_frame t ht f hfk c).2.2.2)]
  constructor
  · intro h32
    rw [show tasksEmail srv F = [] by simp [tasksEmail, h32], runWrites_nil, hpre,
      mainAssigns_Email, if_neg (by simp [h32])]
  · intro h32
    have hem : tasksEmail srv F = [emailTask srv] := by simp [tasksEmail, h32]
    rw [hem] at hf4
    obtain ⟨v, hs, hw⟩ := emailTask_ok_inv ((firstFailure_singleton_eq_none _).1 hf4)
    have hrun : ∀ c, runWrites c [emailTask srv] = { c with ServiceAccountEmail := v } := by
      intro c
      rw [runWrites_cons, hw]
      rfl
    rw [hem, hrun]
    exact hs

/-- On success, `Region` holds the parsed trailing segment of the
combined response when requested, and the resolved default when not. -/
theorem result_Region {srv : Server} {env : Env} {F : MetadataField}
    {opts : List MetadataLoadOption} {m : Metadata}
    (h : (LoadMetadata srv env F opts).res = some m) :
    (F &&& MetadataRegion = 0 → m.Region = (resolvedOpts env opts).defaultRegion) ∧
    (F &&& MetadataRegion ≠ 0 → ∃ res, srv.instanceRegion = .ok res ∧
      m.Region = regionNameOf res) := by
  obtain ⟨hf, hm⟩ := LoadMetadata_res_some_inv h
  unfold tasks at hf hm
  rw [firstFailure_append_eq_none, firstFailure_append_eq_none,
    firstFailure_append_eq_none] at hf
  obtain ⟨⟨⟨hf1, hf2⟩, hf3⟩, hf4⟩ := hf
  rw [runWrites_append, runWrites_append, runWrites_append] at hm
  subst hm
  rw [runWrites_proj (·.Region) _
        (fun t ht f hfk c => (tasksEmail_frame t ht f hfk c).2.2.1),
      runWrites_proj (·.Region) _
        (fun t ht f hfk c => (tasksIID_frame t ht f hfk c).2.2.1)]
  have hpre : (runWrites (mainAssigns env F opts) (tasksPID srv F)).Region =
      (mainAssigns env F opts).Region :=
    runWrites_proj (·.Region) _
      (fun t ht f hfk c => (tasksPID_frame t ht f hfk c).2.1) _
  constructor
  · intro h8
    by_cases h4 : F &&& MetadataProjectNumber ≠ 0
    · have hreg : tasksRegion srv F = [numericProjectIDTask srv] := by
        simp [tasksRegion, h8, h4]
      rw [hreg] at hf2
      obtain ⟨v, hs, hw⟩ :=
        numericProjectIDTask_ok_inv ((firstFailure_singleton_eq_none _).1 hf2)
      have hrun : ∀ c, runWrites c [numericProjectIDTask srv] =
          { c with ProjectNumber := v } := by
        intro c
        rw [runWrites_cons, hw]
        rfl
      rw [hreg, hrun]
      show (runWrites (mainAssigns env F opts) (tasksPID srv F)).Region =
        (resolvedOpts env opts).defaultRegion
      rw [hpre, mainAssigns_Region, if_neg (by simp [h8])]
    · have hreg : tasksRegion srv F = [] := by
        simp only [not_not] at h4
        simp [tasksRegion, h8, h4]
      rw [hreg, runWrites_nil, hpre, mainAssigns_Region, if_neg (by simp [h8])]
  · intro h8
    have hreg : tasksRegion srv F = [regionTask srv F] := by simp [tasksRegion, h8]
    rw [hreg] at hf2
    obtain ⟨res, hs, hw⟩ := regionTask_ok_inv ((firstFailure_singleton_eq_none _).1 hf2)
    refine ⟨res, hs, ?_⟩
    have hrun : ∀ c, runWrites c [regionTask srv F] =
        (let c' := { c with Region := regionNameOf res }
         if c'.ProjectNumber = [] ∧ F &&& MetadataProjectNumber ≠ 0 then
           { c' with ProjectNumber := projectNumberOf res }
         else c') := by
      intro c
      rw [runWrites_cons, hw]
      rfl
    rw [hreg, hrun]
    dsimp only
    split <;> rfl

/-- On success, `ProjectNumber` holds the parsed middle segment of the
combined response when both region and project number are requested, the
dedicated fetch when only the project number is, the resolved default
when neither is, and is left empty when only the region is requested. -/
theorem result_ProjectNumber {srv : Server} {env : Env} {F : MetadataField}
    {opts : List MetadataLoadOption} {m : Metadata}
    (h : (LoadMetadata srv env F opts).res = some m) :
    (F &&& MetadataRegion = 0 → F &&& MetadataProjectNumber = 0 →
      m.ProjectNumber = (resolvedOpts env opts).defaultProjectNumber) ∧
    (F &&& MetadataRegion = 0 → F &&& MetadataProjectNumber ≠ 0 →
      srv.numericProjectID = .ok m.ProjectNumber) ∧
    (F &&& MetadataRegion ≠ 0 → F &&& MetadataProjectNumber ≠ 0 →
      ∃ res, srv.instanceRegion = .ok res ∧ m.ProjectNumber = projectNumberOf res) ∧
    (F &&& MetadataRegion ≠ 0 → F &&& MetadataProjectNumber = 0 →
      m.ProjectNumber = []) := by
  obtain ⟨hf, hm⟩ := LoadMetadata_res_some_inv h
  unfold tasks at hf hm
  rw [firstFailure_append_eq_none, firstFailure_append_eq_none,
    firstFailure_append_eq_none] at hf
  obtain ⟨⟨⟨hf1, hf2⟩, hf3⟩, hf4⟩ := hf
  rw [runWrites_append, runWrites_append, runWrites_append] at hm
  subst hm
  rw [runWrites_proj (·.ProjectNumber) _
        (fun t ht f hfk c => (tasksEmail_frame t ht f hfk c).2.1),
      runWrites_proj (·.ProjectNumber) _
        (fun t ht f hfk c => (tasksIID_frame t ht f hfk c).2.1)]
  have hpre : (runWrites (mainAssigns env F opts) (tasksPID srv F)).ProjectNumber =
      (mainAssigns env F opts).ProjectNumber :=
    runWrites_proj (·.ProjectNumber) _
      (fun t ht f hfk c => (tasksPID_frame t ht f hfk c).1) _
  refine ⟨?_, ?_, ?_, ?_⟩
  · intro h8 h4
    rw [show tasksRegion srv F = [] by simp [tasksRegion, h8, h4], runWrites_nil,
      hpre, mainAssigns_ProjectNumber, if_neg (by simp [h8]), if_neg (by simp [h4])]
  · intro h8 h4
    have hreg : tasksRegion srv F = [numericProjectIDTask srv] := by
      simp [tasksRegion, h8, h4]
    rw [hreg] at hf2
    obtain ⟨v, hs, hw⟩ :=
      numericProjectIDTask_ok_inv ((firstFailure_singleton_eq_none _).1 hf2)
    have hrun : ∀ c, runWrites c [numericProjectIDTask srv] =
        { c with ProjectNumber := v } := by
      intro c
      rw [runWrites_cons, hw]
      rfl
    rw [hreg, hrun]
    exact hs
  · intro h8 h4
    have hreg : tasksRegion srv F = [regionTask srv F] := by simp [tasksRegion, h8]
    rw [hreg] at hf2
    obtain ⟨res, hs, hw⟩ := regionTask_ok_inv ((firstFailure_singleton_eq_none _).1 hf2)
    refine ⟨res, hs, ?_⟩
    have hrun : ∀ c, runWrites c [regionTask srv F] =
        (let c' := { c with Region := regionNameOf res }
         if c'.ProjectNumber = [] ∧ F &&& MetadataProjectNumber ≠ 0 then
           { c' with ProjectNumber := projectNumberOf res }
         else c') := by
      intro c
      rw [runWrites_cons, hw]
      rfl
    rw [hreg, hrun]
    have hempty : (runWrites (mainAssigns env F opts) (tasksPID srv F)).ProjectNumber = [] := by
      rw [hpre, mainAssigns_ProjectNumber, if_pos h8]
    simp [hempty, h4]
  · intro h8 h4
    have hreg : tasksRegion srv F = [regionTask srv F] := by simp [tasksRegion, h8]
    rw [hreg] at hf2
    obtain ⟨res, hs, hw⟩ := regionTask_ok_inv ((firstFailure_singleton_eq_none _).1 hf2)
    have hrun : ∀ c, runWrites c [regionTask srv F] =
        (let c' := { c with Region := regionNameOf res }
         if c'.ProjectNumber = [] ∧ F &&& MetadataProjectNumber ≠ 0 then
           { c' with ProjectNumber := projectNumberOf res }
         else c') := by
      intro c
      rw [runWrites_cons, hw]
      rfl
    rw [hreg, hrun]
    have hempty : (runWrites (mainAssigns env F opts) (tasksPID srv F)).ProjectNumber = [] := by
      rw [hpre, mainAssigns_ProjectNumber, if_pos h8]
    simp [hempty, h4]

end MetadataGo

/-! ## Parsing the `instance/region` response -/

theorem indexByte_append_cons (n rest : GoStr) (c : Char) (hn : c ∉ n) :
    indexByte (n ++ c :: rest) c = n.length := by
  induction n with
  | nil => simp [indexByte]
  | cons a n ih =>
    have ha : a ≠ c := fun h => hn (h ▸ List.mem_cons_self a n)
    have hn' : c ∉ n := fun h => hn (List.mem_cons_of_mem a h)
    rw [List.cons_append, indexByte, if_neg ha]
    have := ih hn'
    simp only [this]
    rw [if_neg (by omega)]
    push_cast [List.length_cons]
    ring

theorem lastIndexByte_append_cons (s r : GoStr) (hr : '/' ∉ r) :
    lastIndexByte (s ++ '/' :: r) '/' = s.length := by
  have hrev : (s ++ '/' :: r).reverse = r.reverse ++ '/' :: s.reverse := by
    simp
  have hidx : indexByte (s ++ '/' :: r).reverse '/' = r.length := by
    rw [hrev, indexByte_append_cons _ _ _ (by simpa using hr)]
    simp
  have hlen : (s ++ '/' :: r).length = s.length + r.length + 1 := by
    simp
    omega
  rw [lastIndexByte]
  simp only [hidx, hlen]
  rw [if_neg (by omega)]
  push_cast
  ring

theorem regionNameOf_append_cons (s r : GoStr) (hr : '/' ∉ r) :
    regionNameOf (s ++ '/' :: r) = r := by
  rw [regionNameOf, lastIndexByte_append_cons s r hr]
  have : ((s.length : Int) + 1).toNat = (s ++ ['/']).length := by
    simp
  rw [this, show s ++ '/' :: r = (s ++ ['/']) ++ r by simp, List.drop_left]

theorem projectNumberOf_projects (n t : GoStr) (hn : '/' ∉ n) :
    projectNumberOf (str "projects/" ++ (n ++ '/' :: t)) = n := by
  rw [projectNumberOf]
  have h9 : (str "projects/" ++ (n ++ '/' :: t)).drop 9 = n ++ '/' :: t := by
    rw [show (9 : Nat) = (str "projects/").length from rfl, List.drop_left]
  simp only [h9, indexByte_append_cons n t '/' hn]
  rw [if_neg (by omega)]
  simp [List.take_left]

/-- Membership in a conditional singleton. -/
theorem mem_ite_singleton {α : Type} (x a : α) (c : Prop) [Decidable c] :
    (x ∈ if c then [a] else []) ↔ c ∧ x = a := by
  split <;> simp_all

/-- Membership in a two-way conditional singleton. -/
theorem mem_ite_ite_singleton {α : Type} (x a b : α) (c d : Prop)
    [Decidable c] [Decidable d] :
    (x ∈ if c then [a] else if d then [b] else []) ↔
      (c ∧ x = a) ∨ (¬c ∧ d ∧ x = b) := by
  split
  · simp_all
  · rw [mem_ite_singleton]
    simp_all

/-- C10: whenever `LoadMetadata` (metadata.go:280-284) returns a non-nil
error, the returned `Metadata` pointer is nil — callers never receive a
partially-filled record alongside an error. -/
theorem loadMetadata_error_implies_nil_result (srv : Server) (env : Env)
    (F : MetadataField) (opts : List MetadataGo.MetadataLoadOption)
    (h : (MetadataGo.LoadMetadata srv env F opts).err ≠ []) :
    (MetadataGo.LoadMetadata srv env F opts).res = none := by
  unfold MetadataGo.LoadMetadata at h ⊢
  cases hf : firstFailure (MetadataGo.tasks srv F) <;> simp_all [hf]

/-- Witness for C10 at a failing server. -/
theorem loadMetadata_error_implies_nil_result_witness :
    (MetadataGo.LoadMetadata srvAllFail envEmpty MetadataProjectID []).err ≠ [] ∧
      (MetadataGo.LoadMetadata srvAllFail envEmpty MetadataProjectID []).res = none :=
  ⟨by decide,
    loadMetadata_error_implies_nil_result srvAllFail envEmpty MetadataProjectID []
      (by decide)⟩

/-- C3 (counterexample): with both the `instance/region` and instance-ID
fetches failing, the returned error holds only the first cause — the
instance-ID cause is dropped, so not every per-field cause is
preserved.  (`errgroup.Wait` returns a single goroutine's error in every
completion order; the model realizes spawn order.) -/
theorem loadMetadata_multi_failure_drops_second_cause :
    (MetadataGo.LoadMetadata srvTwoFail envEmpty
        (MetadataRegion ||| MetadataInstanceID) []).err =
      [ErrAtom.metadataFetch, ErrAtom.fetchFail "region" "region boom"] ∧
    srvTwoFail.instanceID = .error "instance boom" ∧
    Endpoint.instanceID ∈ (MetadataGo.LoadMetadata srvTwoFail envEmpty
        (MetadataRegion ||| MetadataInstanceID) []).fetches ∧
    ErrAtom.fetchFail "instance ID" "instance boom" ∉
      (MetadataGo.LoadMetadata srvTwoFail envEmpty
        (MetadataRegion ||| MetadataInstanceID) []).err := by
  decide

/-- C3 (amended): any error returned by `LoadMetadata` wraps the
metadata-fetch sentinel together with exactly one per-field cause (the
first failing fetch); further causes are not aggregated. -/
theorem loadMetadata_error_wraps_single_cause (srv : Server) (env : Env)
    (F : MetadataField) (opts : List MetadataGo.MetadataLoadOption) :
    (MetadataGo.LoadMetadata srv env F opts).err = [] ∨
      ∃ e, (MetadataGo.LoadMetadata srv env F opts).err = [ErrAtom.metadataFetch, e] := by
  unfold MetadataGo.LoadMetadata
  cases hf : firstFailure (MetadataGo.tasks srv F) <;> simp [hf]

/-- C6 (counterexample): with no field requested (`MetadataNone`) and
`CLOUDSDK_CORE_PROJECT` set, the returned record's `ProjectID` is the
non-empty environment value even though its flag is not set — unrequested
fields do not remain empty.  The server here fails every request, showing
no fetch is involved. -/
theorem loadMetadata_unrequested_field_filled_from_env :
    MetadataNone &&& MetadataProjectID = 0 ∧
    (MetadataGo.LoadMetadata srvAllFail envProjOverride MetadataNone []).err = [] ∧
    (MetadataGo.LoadMetadata srvAllFail envProjOverride MetadataNone []).res.map
        Metadata.ProjectID = some (str "env-project") ∧
    str "env-project" ≠ [] := by
  decide

/-- C6 (amended): on success each field is characterized as follows — a
requested field holds the successfully fetched (and, for the region
group, parsed) value; an unrequested field holds its resolved
env-override/option default, except that `ProjectNumber` is left empty
when the region is requested without it.  In particular a field can be
non-empty without having been requested. -/
theorem loadMetadata_success_field_characterization (srv : Server) (env : Env)
    (F : MetadataField) (opts : List MetadataGo.MetadataLoadOption) (m : Metadata)
    (h : (MetadataGo.LoadMetadata srv env F opts).res = some m) :
    (F &&& MetadataProjectID = 0 →
      m.ProjectID = (MetadataGo.resolvedOpts env opts).defaultProjectID) ∧
    (F &&& MetadataProjectID ≠ 0 → srv.projectID = .ok m.ProjectID) ∧
    (F &&& MetadataInstanceID = 0 →
      m.InstanceID = (MetadataGo.resolvedOpts env opts).defaultInstanceID) ∧
    (F &&& MetadataInstanceID ≠ 0 → srv.instanceID = .ok m.InstanceID) ∧
    (F &&& MetadataServiceAccountEmail = 0 →
      m.ServiceAccountEmail = (MetadataGo.resolvedOpts env opts).defaultServiceAccountEmail) ∧
    (F &&& MetadataServiceAccountEmail ≠ 0 → srv.email = .ok m.ServiceAccountEmail) ∧
    (F &&& MetadataRegion = 0 →
      m.Region = (MetadataGo.resolvedOpts env opts).defaultRegion) ∧
    (F &&& MetadataRegion ≠ 0 →
      ∃ res, srv.instanceRegion = .ok res ∧ m.Region = regionNameOf res) ∧
    (F &&& MetadataRegion = 0 → F &&& MetadataProjectNumber = 0 →
      m.ProjectNumber = (MetadataGo.resolvedOpts env opts).defaultProjectNumber) ∧
    (F &&& MetadataRegion = 0 → F &&& MetadataProjectNumber ≠ 0 →
      srv.numericProjectID = .ok m.ProjectNumber) ∧
    (F &&& MetadataRegion ≠ 0 → F &&& MetadataProjectNumber ≠ 0 →
      ∃ res, srv.instanceRegion = .ok res ∧ m.ProjectNumber = projectNumberOf res) ∧
    (F &&& MetadataRegion ≠ 0 → F &&& MetadataProjectNumber = 0 →
      m.ProjectNumber = []) :=
  ⟨(MetadataGo.result_ProjectID h).1, (MetadataGo.result_ProjectID h).2,
    (MetadataGo.result_InstanceID h).1, (MetadataGo.result_InstanceID h).2,
    (MetadataGo.result_Email h).1, (MetadataGo.result_Email h).2,
    (MetadataGo.result_Region h).1, (MetadataGo.result_Region h).2,
    (MetadataGo.result_ProjectNumber h).1, (MetadataGo.result_ProjectNumber h).2.1,
    (MetadataGo.result_ProjectNumber h).2.2.1, (MetadataGo.result_ProjectNumber h).2.2.2⟩

/-- C1 (counterexample): `CLOUDSDK_CORE_PROJECT` resolves to the
non-empty value `env-project`, yet with the `MetadataProjectID` flag set
`LoadMetadata` (metadata.go) still issues the remote project-ID fetch and
returns the fetched value, not the environment value. -/
theorem loadMetadata_requested_field_ignores_env_override :
    GetFirstEnv envProjOverride MetadataGo.EnvProjectID = str "env-project" ∧
    str "env-project" ≠ [] ∧
    Endpoint.projectID ∈
      (MetadataGo.LoadMetadata srvAllOk envProjOverride MetadataProjectID []).fetches ∧
    (MetadataGo.LoadMetadata srvAllOk envProjOverride MetadataProjectID []).res.map
        Metadata.ProjectID = some (str "srv-proj") ∧
    str "srv-proj" ≠ str "env-project" := by
  decide

/-- C1 (amended): in `LoadMetadata` (metadata.go, option-less call) an
environment override wins and suppresses the remote fetch only for a
field whose flag is NOT set (for `ProjectNumber`, additionally only when
the region's flag is not set, in which case the field is left empty);
for a requested field the remote fetch is always issued and, on success,
the fetched value is used regardless of the environment. -/
theorem loadMetadata_override_wins_only_for_unrequested (srv : Server) (env : Env)
    (F : MetadataField) (m : Metadata)
    (h : (MetadataGo.LoadMetadata srv env F []).res = some m) :
    (F &&& MetadataProjectID = 0 →
      Endpoint.projectID ∉ (MetadataGo.LoadMetadata srv env F []).fetches ∧
      m.ProjectID = GetFirstEnv env MetadataGo.EnvProjectID) ∧
    (F &&& MetadataProjectID ≠ 0 →
      Endpoint.projectID ∈ (MetadataGo.LoadMetadata srv env F []).fetches ∧
      srv.projectID = .ok m.ProjectID) ∧
    (F &&& MetadataInstanceID = 0 →
      Endpoint.instanceID ∉ (MetadataGo.LoadMetadata srv env F []).fetches ∧
      m.InstanceID = GetFirstEnv env MetadataGo.EnvInstanceID) ∧
    (F &&& MetadataInstanceID ≠ 0 →
      Endpoint.instanceID ∈ (MetadataGo.LoadMetadata srv env F []).fetches ∧
      srv.instanceID = .ok m.InstanceID) ∧
    (F &&& MetadataServiceAccountEmail = 0 →
      Endpoint.email ∉ (MetadataGo.LoadMetadata srv env F []).fetches ∧
      m.ServiceAccountEmail = GetFirstEnv env MetadataGo.EnvServiceAccountEmail) ∧
    (F &&& MetadataServiceAccountEmail ≠ 0 →
      Endpoint.email ∈ (MetadataGo.LoadMetadata srv env F []).fetches ∧
      srv.email = .ok m.ServiceAccountEmail) ∧
    (F &&& MetadataRegion = 0 →
      Endpoint.instanceRegion ∉ (MetadataGo.LoadMetadata srv env F []).fetches ∧
      m.Region = GetFirstEnv env MetadataGo.EnvRegion) ∧
    (F &&& MetadataRegion ≠ 0 →
      Endpoint.instanceRegion ∈ (MetadataGo.LoadMetadata srv env F []).fetches) ∧
    (F &&& MetadataRegion = 0 → F &&& MetadataProjectNumber = 0 →
      Endpoint.numericProjectID ∉ (MetadataGo.LoadMetadata srv env F []).fetches ∧
      m.ProjectNumber = GetFirstEnv env MetadataGo.EnvProjectNumber) ∧
    (F &&& MetadataRegion = 0 → F &&& MetadataProjectNumber ≠ 0 →
      Endpoint.numericProjectID ∈ (MetadataGo.LoadMetadata srv env F []).fetches ∧
      srv.numericProjectID = .ok m.ProjectNumber) ∧
    (F &&& MetadataRegion ≠ 0 →
      Endpoint.numericProjectID ∉ (MetadataGo.LoadMetadata srv env F []).fetches ∧
      (F &&& MetadataProjectNumber = 0 → m.ProjectNumber = [])) := by
  have hfet := MetadataGo.LoadMetadata_fetches srv env F []
  refine ⟨fun h2 => ⟨?_, ?_⟩, fun h2 => ⟨?_, ?_⟩, fun h16 => ⟨?_, ?_⟩,
    fun h16 => ⟨?_, ?_⟩, fun h32 => ⟨?_, ?_⟩, fun h32 => ⟨?_, ?_⟩,
    fun h8 => ⟨?_, ?_⟩, fun h8 => ?_, fun h8 h4 => ⟨?_, ?_⟩,
    fun h8 h4 => ⟨?_, ?_⟩, fun h8 => ⟨?_, fun h4 => ?_⟩⟩
  · rw [hfet]
    simp only [List.mem_append, mem_ite_singleton, mem_ite_ite_singleton, not_or]
    simp [h2]
  · simpa [MetadataGo.resolvedOpts, MetadataGo.defaultMetadataLoadOptions] using
      (MetadataGo.result_ProjectID h).1 h2
  · rw [hfet]
    simp only [List.mem_append, mem_ite_singleton, mem_ite_ite_singleton, not_or]
    simp [h2]
  · exact (MetadataGo.result_ProjectID h).2 h2
  · rw [hfet]
    simp only [List.mem_append, mem_ite_singleton, mem_ite_ite_singleton, not_or]
    simp [h16]
  · simpa [MetadataGo.resolvedOpts, MetadataGo.defaultMetadataLoadOptions] using
      (MetadataGo.result_InstanceID h).1 h16
  · rw [hfet]
    simp only [List.mem_append, mem_ite_singleton, mem_ite_ite_singleton, not_or]
    simp [h16]
  · exact (MetadataGo.result_InstanceID h).2 h16
  · rw [hfet]
    simp only [List.mem_append, mem_ite_singleton, mem_ite_ite_singleton, not_or]
    simp [h32]
  · simpa [MetadataGo.resolvedOpts, MetadataGo.defaultMetadataLoadOptions] using
      (MetadataGo.result_Email h).1 h32
  · rw [hfet]
    simp only [List.mem_append, mem_ite_singleton, mem_ite_ite_singleton, not_or]
    simp [h32]
  · exact (MetadataGo.result_Email h).2 h32
  · rw [hfet]
    simp only [List.mem_append, mem_ite_singleton, mem_ite_ite_singleton, not_or]
    simp [h8]
  · simpa [MetadataGo.resolvedOpts, MetadataGo.defaultMetadataLoadOptions] using
      (MetadataGo.result_Region h).1 h8
  · rw [hfet]
    simp only [List.mem_append, mem_ite_singleton, mem_ite_ite_singleton, not_or]
    simp [h8]
  · rw [hfet]
    simp only [List.mem_append, mem_ite_singleton, mem_ite_ite_singleton, not_or]
    simp [h8, h4]
  · simpa [MetadataGo.resolvedOpts, MetadataGo.defaultMetadataLoadOptions] using
      (MetadataGo.result_ProjectNumber h).1 h8 h4
  · rw [hfet]
    simp only [List.mem_append, mem_ite_singleton, mem_ite_ite_singleton, not_or]
    simp [h8, h4]
  · exact (MetadataGo.result_ProjectNumber h).2.1 h8 h4
  · rw [hfet]
    simp only [List.mem_append, mem_ite_singleton, mem_ite_ite_singleton, not_or]
    simp [h8]
  · exact (MetadataGo.result_ProjectNumber h).2.2.2 h8 h4

/-- Witness for the C1 amended theorem at a successful option-less call
requesting only the project ID while `CLOUDSDK_CORE_PROJECT` is set. -/
theorem loadMetadata_override_wins_only_for_unrequested_witness :
    (MetadataGo.LoadMetadata srvAllOk envProjOverride MetadataProjectID []).res =
        some { ProjectID := str "srv-proj" } ∧
    MetadataProjectID &&& MetadataProjectID ≠ 0 ∧
    (Endpoint.projectID ∈
        (MetadataGo.LoadMetadata srvAllOk envProjOverride MetadataProjectID []).fetches ∧
      srvAllOk.projectID = .ok (str "srv-proj")) :=
  ⟨by decide, by decide,
    (loadMetadata_override_wins_only_for_unrequested srvAllOk envProjOverride
      MetadataProjectID { ProjectID := str "srv-proj" } (by decide)).2.1 (by decide)⟩

/-- C2: when both `MetadataRegion` and `MetadataProjectNumber` are set,
`LoadMetadata` (metadata.go:220-252) issues exactly one combined fetch to
the `instance/region` endpoint (none to the dedicated numeric endpoint);
from a response `projects/` ++ n ++ `/regions/` ++ r it sets `Region` to
the substring after the last slash (r) and `ProjectNumber` to the segment
between `projects/` and the next slash (n).  When only the project number
is requested (field set `F'`), the dedicated numeric endpoint is fetched
alone. -/
theorem loadMetadata_combined_region_project_number (srv : Server) (env : Env)
    (F F' : MetadataField) (opts : List MetadataGo.MetadataLoadOption)
    (n r : GoStr) (m : Metadata)
    (h8 : F &&& MetadataRegion ≠ 0) (h4 : F &&& MetadataProjectNumber ≠ 0)
    (hres : srv.instanceRegion = .ok (str "projects/" ++ n ++ str "/regions/" ++ r))
    (hn : '/' ∉ n) (hr : '/' ∉ r)
    (h8' : F' &&& MetadataRegion = 0) (h4' : F' &&& MetadataProjectNumber ≠ 0) :
    ((MetadataGo.LoadMetadata srv env F opts).fetches.count Endpoint.instanceRegion = 1 ∧
      Endpoint.numericProjectID ∉ (MetadataGo.LoadMetadata srv env F opts).fetches) ∧
    ((MetadataGo.LoadMetadata srv env F opts).res = some m →
      m.Region = r ∧ m.ProjectNumber = n) ∧
    (Endpoint.numericProjectID ∈ (MetadataGo.LoadMetadata srv env F' opts).fetches ∧
      Endpoint.instanceRegion ∉ (MetadataGo.LoadMetadata srv env F' opts).fetches) := by
  have hdec1 : str "projects/" ++ n ++ str "/regions/" ++ r =
      (str "projects/" ++ n ++ str "/regions") ++ '/' :: r := by
    rw [show str "/regions/" = str "/regions" ++ ['/'] by decide]
    simp
  have hdec2 : str "projects/" ++ n ++ str "/regions/" ++ r =
      str "projects/" ++ (n ++ '/' :: (str "regions/" ++ r)) := by
    rw [show str "/regions/" = '/' :: str "regions/" by decide]
    simp
  refine ⟨⟨?_, ?_⟩, fun hsome => ⟨?_, ?_⟩, ?_, ?_⟩
  · rw [MetadataGo.LoadMetadata_fetches, if_pos h8]
    simp only [List.count_append]
    split_ifs <;> decide
  · rw [MetadataGo.LoadMetadata_fetches]
    simp only [List.mem_append, mem_ite_singleton, mem_ite_ite_singleton, not_or]
    simp [h8]
  · obtain ⟨res0, hs0, hR⟩ := (MetadataGo.result_Region hsome).2 h8
    rw [hres] at hs0
    cases Except.ok.inj hs0
    rw [hR, hdec1, regionNameOf_append_cons _ _ hr]
  · obtain ⟨res0, hs0, hPN⟩ := (MetadataGo.result_ProjectNumber hsome).2.2.1 h8 h4
    rw [hres] at hs0
    cases Except.ok.inj hs0
    rw [hPN, hdec2, projectNumberOf_projects _ _ hn]
  · rw [MetadataGo.LoadMetadata_fetches]
    simp only [List.mem_append, mem_ite_singleton, mem_ite_ite_singleton, not_or]
    simp [h8', h4']
  · rw [MetadataGo.LoadMetadata_fetches]
    simp only [List.mem_append, mem_ite_singleton, mem_ite_ite_singleton, not_or]
    simp [h8', h4']

/-- Witness for C2 at a concrete call requesting region and project
number against a server answering `projects/123/regions/us-east1`. -/
theorem loadMetadata_combined_region_project_number_witness :
    (MetadataRegion ||| MetadataProjectNumber) &&& MetadataRegion ≠ 0 ∧
    (MetadataRegion ||| MetadataProjectNumber) &&& MetadataProjectNumber ≠ 0 ∧
    srvAllOk.instanceRegion =
      .ok (str "projects/" ++ str "123" ++ str "/regions/" ++ str "us-east1") ∧
    MetadataProjectNumber &&& MetadataRegion = 0 ∧
    MetadataProjectNumber &&& MetadataProjectNumber ≠ 0 ∧
    (((MetadataGo.LoadMetadata srvAllOk envEmpty
          (MetadataRegion ||| MetadataProjectNumber) []).fetches.count
        Endpoint.instanceRegion = 1 ∧
      Endpoint.numericProjectID ∉ (MetadataGo.LoadMetadata srvAllOk envEmpty
          (MetadataRegion ||| MetadataProjectNumber) []).fetches) ∧
    ((MetadataGo.LoadMetadata srvAllOk envEmpty
          (MetadataRegion ||| MetadataProjectNumber) []).res =
        some { ProjectNumber := str "123", Region := str "us-east1" } →
      Metadata.Region { ProjectNumber := str "123", Region := str "us-east1" } =
          str "us-east1" ∧
        Metadata.ProjectNumber { ProjectNumber := str "123", Region := str "us-east1" } =
          str "123") ∧
    (Endpoint.numericProjectID ∈
        (MetadataGo.LoadMetadata srvAllOk envEmpty MetadataProjectNumber []).fetches ∧
      Endpoint.instanceRegion ∉
        (MetadataGo.LoadMetadata srvAllOk envEmpty MetadataProjectNumber []).fetches)) :=
  ⟨by decide, by decide, by decide, by decide, by decide,
    loadMetadata_combined_region_project_number srvAllOk envEmpty
      (MetadataRegion ||| MetadataProjectNumber) MetadataProjectNumber []
      (str "123") (str "us-east1")
      { ProjectNumber := str "123", Region := str "us-east1" }
      (by decide) (by decide) (by decide) (by decide) (by decide)
      (by decide) (by decide)⟩

/-! ## Claims about the `Service` and `Job` loaders -/

/-- Every element produced by `firstValidPort` is a non-zero parsed
port. -/
theorem firstValidPort_ne_zero {ss : List GoStr} {p : Nat}
    (h : ServiceGo.firstValidPort ss = some p) : p ≠ 0 := by
  obtain ⟨a, -, hfa⟩ := List.exists_of_findSome?_eq_some h
  by_cases ha : a = []
  · simp [ha] at hfa
  · rw [if_neg ha] at hfa
    split at hfa
    · rename_i q heq
      by_cases hq : q = 0
      · rw [if_neg (by simp [hq])] at hfa
        cases hfa
      · rw [if_pos hq] at hfa
        cases hfa
        exact hq
    · cases hfa

/-- The recognized option builders never set a zero port. -/
theorem applyOpts_port_ne_zero (opts : List ServiceGo.ServiceLoadOption) :
    (opts.foldl ServiceGo.applyOpt ServiceGo.defaultService).Port ≠ 0 := by
  have aux : ∀ (os : List ServiceGo.ServiceLoadOption) (s : ServiceGo.Service),
      s.Port ≠ 0 → (os.foldl ServiceGo.applyOpt s).Port ≠ 0 := by
    intro os
    induction os with
    | nil => intro s hs; exact hs
    | cons o os ih =>
      intro s hs
      refine ih _ ?_
      cases o with
      | withDefaultPort ps =>
        cases hfind : ps.find? (fun p => p ≠ 0) with
        | none => simpa only [ServiceGo.applyOpt, hfind] using hs
        | some p =>
          have := List.find?_some hfind
          simp only [ServiceGo.applyOpt, hfind]
          simpa using this
      | withDefaultPortString ss =>
        cases hfind : ServiceGo.firstValidPort ss with
        | none => simpa only [ServiceGo.applyOpt, hfind] using hs
        | some p =>
          simp only [ServiceGo.applyOpt, hfind]
          simpa using firstValidPort_ne_zero hfind
      | withDefaultServiceName xs => simpa only [ServiceGo.applyOpt] using hs
      | withDefaultRevision xs => simpa only [ServiceGo.applyOpt] using hs
      | withDefaultConfiguration xs => simpa only [ServiceGo.applyOpt] using hs
  exact aux opts ServiceGo.defaultService (by decide)

/-- With `PORT` unset, `Service.Reload` succeeds and keeps the incoming
port. -/
theorem ServiceGo_Reload_port_unset (env : Env) (s : ServiceGo.Service)
    (hp : env (str "PORT") = []) :
    ∃ s', ServiceGo.Reload env s = .ok s' ∧ s'.Port = s.Port := by
  unfold ServiceGo.Reload
  rw [if_neg (by simp [hp])]
  refine ⟨_, rfl, ?_⟩
  split_ifs <;> rfl

/-- C5 (counterexample): with `PORT=abc` the returned error wraps not
only the environment-processing sentinel but also `ErrInvalidPort`
(service.go:162 joins both), so a caller matching the invalid-port
category cannot distinguish the parse failure from the zero-port case by
that check alone. -/
theorem loadService_parse_failure_also_wraps_invalid_port :
    errOf (ServiceGo.LoadService envPortAbc []) =
      [ErrAtom.envProcess, ErrAtom.invalidPort, ErrAtom.parseFail "" (str "abc")] ∧
    ErrAtom.invalidPort ∈ errOf (ServiceGo.LoadService envPortAbc []) ∧
    ErrAtom.envProcess ∈ errOf (ServiceGo.LoadService envPortAbc []) := by
  decide

/-- C5 (amended): `PORT="0"` yields an error wrapping only the
invalid-port sentinel; a non-numeric `PORT` yields an error wrapping BOTH
the environment-processing and invalid-port sentinels (so the zero case,
not the parse case, is the one distinguishable — by the absence of the
environment-processing category); with `PORT` unset the result's port is
the option-supplied default (8080 absent options) and is never 0. -/
theorem loadService_port_error_categories (env : Env)
    (opts : List ServiceGo.ServiceLoadOption) :
    (env (str "PORT") = str "0" →
      ServiceGo.LoadService env opts = .error [ErrAtom.invalidPort]) ∧
    (env (str "PORT") ≠ [] → parseUint (env (str "PORT")) 16 = .error () →
      ServiceGo.LoadService env opts =
        .error [ErrAtom.envProcess, ErrAtom.invalidPort,
          ErrAtom.parseFail "" (env (str "PORT"))]) ∧
    (env (str "PORT") = [] →
      ∃ s, ServiceGo.LoadService env opts = .ok s ∧
        s.Port = (opts.foldl ServiceGo.applyOpt ServiceGo.defaultService).Port ∧
        s.Port ≠ 0) := by
  refine ⟨?_, ?_, ?_⟩
  · intro hp0
    unfold ServiceGo.LoadService ServiceGo.Reload
    rw [hp0]
    rw [if_pos (by decide), show parseUint (str "0") 16 = .ok 0 from by decide]
    rfl
  · intro hne hperr
    unfold ServiceGo.LoadService ServiceGo.Reload
    rw [if_pos hne, hperr]
  · intro hp
    obtain ⟨s', hrel, hport⟩ :=
      ServiceGo_Reload_port_unset env (opts.foldl ServiceGo.applyOpt ServiceGo.defaultService) hp
    exact ⟨s', hrel, hport, by rw [hport]; exact applyOpts_port_ne_zero opts⟩

/-- Witness for the C5 amended theorem: `PORT=0` yields the invalid-port
error. -/
theorem loadService_port_error_categories_witness :
    envPortZero (str "PORT") = str "0" ∧
      ServiceGo.LoadService envPortZero [] = .error [ErrAtom.invalidPort] :=
  ⟨by decide, (loadService_port_error_categories envPortZero []).1 (by decide)⟩

/-- C4 (counterexample): with every `CLOUD_RUN_TASK_*` variable unset and
the metadata fetches succeeding, `LoadJob` returns `TaskCount = 0`, not
the claimed default of 1 (`LoadJob` never applies a task-count default:
job.go:55-83). -/
theorem loadJob_task_count_defaults_to_zero :
    envEmpty (str "CLOUD_RUN_TASK_COUNT") = [] ∧
    (JobGo.LoadJob srvAllOk envEmpty []).toOption.map JobGo.Job.TaskCount = some 0 ∧
    (some 0 : Option Nat) ≠ some 1 := by
  decide

/-- C4 (amended): with `CLOUD_RUN_TASK_INDEX`, `CLOUD_RUN_TASK_ATTEMPT`
and `CLOUD_RUN_TASK_COUNT` all unset, a successful `LoadJob` returns
`TaskIndex = TaskAttempt = TaskCount = 0` — the task count shares the
zero default of the other two counters. -/
theorem loadJob_unset_task_vars_default_zero (srv : Server) (env : Env)
    (opts : List JobGo.LoadOption) (j : JobGo.Job)
    (hti : env (str "CLOUD_RUN_TASK_INDEX") = [])
    (hta : env (str "CLOUD_RUN_TASK_ATTEMPT") = [])
    (htc : env (str "CLOUD_RUN_TASK_COUNT") = [])
    (h : JobGo.LoadJob srv env opts = .ok j) :
    j.TaskIndex = 0 ∧ j.TaskAttempt = 0 ∧ j.TaskCount = 0 := by
  have hv : ∀ name, env (str name) = [] →
      JobGo.parseTaskVar env name = .ok 0 := by
    intro name hname
    unfold JobGo.parseTaskVar
    rw [hname, if_pos rfl]
  unfold JobGo.LoadJob at h
  simp only [hv "CLOUD_RUN_TASK_INDEX" hti, hv "CLOUD_RUN_TASK_ATTEMPT" hta,
    hv "CLOUD_RUN_TASK_COUNT" htc] at h
  split at h
  · cases h
  · cases Except.ok.inj h
    exact ⟨rfl, rfl, rfl⟩

/-- Witness for the C4 amended theorem at a concrete successful call. -/
theorem loadJob_unset_task_vars_default_zero_witness :
    envEmpty (str "CLOUD_RUN_TASK_INDEX") = [] ∧
    envEmpty (str "CLOUD_RUN_TASK_ATTEMPT") = [] ∧
    envEmpty (str "CLOUD_RUN_TASK_COUNT") = [] ∧
    JobGo.LoadJob srvAllOk envEmpty [] = .ok jobAllOk ∧
    (jobAllOk.TaskIndex = 0 ∧ jobAllOk.TaskAttempt = 0 ∧ jobAllOk.TaskCount = 0) :=
  ⟨by decide, by decide, by decide, by decide,
    loadJob_unset_task_vars_default_zero srvAllOk envEmpty [] jobAllOk
      (by decide) (by decide) (by decide) (by decide)⟩

/-! ## Structural lemmas about `ReloadVariant.Reload` and `EnvDecode` -/

namespace ReloadVariant

theorem rvTasksPID_frame {srv : Server} {F : MetadataField} :
    ∀ t ∈ tasksPID srv F, ∀ f, t.2 = .ok f → ∀ c,
      (f c).ProjectNumber = c.ProjectNumber ∧ (f c).Region = c.Region ∧
        (f c).InstanceID = c.InstanceID ∧
        (f c).ServiceAccountEmail = c.ServiceAccountEmail := by
  intro t ht f hf c
  unfold tasksPID at ht
  split at ht
  · rw [List.mem_singleton] at ht
    subst ht
    exact projectIDTask_frame hf c
  · simp at ht

theorem rvTasksRegion_frame {srv : Server} {F : MetadataField} :
    ∀ t ∈ tasksRegion srv F, ∀ f, t.2 = .ok f → ∀ c,
      (f c).ProjectID = c.ProjectID ∧ (f c).InstanceID = c.InstanceID ∧
        (f c).ServiceAccountEmail = c.ServiceAccountEmail := by
  intro t ht f hf c
  unfold tasksRegion at ht
  split at ht
  · rw [List.mem_singleton] at ht
    subst ht
    exact RVregionTask_frame hf c
  · split at ht
    · rw [List.mem_singleton] at ht
      subst ht
      obtain ⟨a, b, c', d⟩ := numericProjectIDTask_frame hf c
      exact ⟨a, c', d⟩
    · simp at ht

theorem rvTasksRegion_frame_PN {srv : Server} {F : MetadataField}
    (h4 : F &&& MetadataProjectNumber = 0) :
    ∀ t ∈ tasksRegion srv F, ∀ f, t.2 = .ok f → ∀ c,
      (f c).ProjectNumber = c.ProjectNumber := by
  intro t ht f hf c
  unfold tasksRegion at ht
  split at ht
  · rw [List.mem_singleton] at ht
    subst ht
    exact RVregionTask_frame_PN hf h4 c
  · split at ht
    · simp_all
    · simp at ht

theorem rvTasksRegion_frame_Region {srv : Server} {F : MetadataField}
    (h8 : F &&& MetadataRegion = 0) :
    ∀ t ∈ tasksRegion srv F, ∀ f, t.2 = .ok f → ∀ c,
      (f c).Region = c.Region := by
  intro t ht f hf c
  unfold tasksRegion at ht
  rw [if_neg (by simp [h8])] at ht
  split at ht
  · rw [List.mem_singleton] at ht
    subst ht
    exact (numericProjectIDTask_frame hf c).2.1
  · simp at ht

theorem rvTasksIID_frame {srv : Server} {F : MetadataField} :
    ∀ t ∈ tasksIID srv F, ∀ f, t.2 = .ok f → ∀ c,
      (f c).ProjectID = c.ProjectID ∧ (f c).ProjectNumber = c.ProjectNumber ∧
        (f c).Region = c.Region ∧
        (f c).ServiceAccountEmail = c.ServiceAccountEmail := by
  intro t ht f hf c
  unfold tasksIID at ht
  split at ht
  · rw [List.mem_singleton] at ht
    subst ht
    exact instanceIDTask_frame hf c
  · simp at ht

theorem rvTasksEmail_frame {srv : Server} {F : MetadataField} :
    ∀ t ∈ tasksEmail srv F, ∀ f, t.2 = .ok f → ∀ c,
      (f c).ProjectID = c.ProjectID ∧ (f c).ProjectNumber = c.ProjectNumber ∧
        (f c).Region = c.Region ∧ (f c).InstanceID = c.InstanceID := by
  intro t ht f hf c
  unfold tasksEmail at ht
  split at ht
  · rw [List.mem_singleton] at ht
    subst ht
    exact emailTask_frame hf c
  · simp at ht

theorem Reload_fetches (srv : Server) (F : MetadataField) (m : Metadata) :
    (Reload srv F m).fetches =
      (if F &&& MetadataProjectID ≠ 0 then [Endpoint.projectID] else [])
        ++ (if F &&& MetadataRegion ≠ 0 then [Endpoint.instanceRegion]
            else if F &&& MetadataProjectNumber ≠ 0 then [Endpoint.numericProjectID]
            else [])
        ++ (if F &&& MetadataInstanceID ≠ 0 then [Endpoint.instanceID] else [])
        ++ (if F &&& MetadataServiceAccountEmail ≠ 0 then [Endpoint.email] else []) := by
  show (tasks srv F).map (·.1) = _
  unfold tasks tasksPID tasksRegion tasksIID tasksEmail
  split_ifs <;>
    simp [projectIDTask, regionTask, numericProjectIDTask, instanceIDTask, emailTask]

theorem Reload_preserves_ProjectID {srv : Server} {F : MetadataField} {m : Metadata}
    (h2 : F &&& MetadataProjectID = 0) :
    (Reload srv F m).m.ProjectID = m.ProjectID := by
  show (runWrites m (tasks srv F)).ProjectID = m.ProjectID
  unfold tasks
  rw [runWrites_append, runWrites_append, runWrites_append,
    runWrites_proj (·.ProjectID) _
      (fun t ht f hfk c => (rvTasksEmail_frame t ht f hfk c).1),
    runWrites_proj (·.ProjectID) _
      (fun t ht f hfk c => (rvTasksIID_frame t ht f hfk c).1),
    runWrites_proj (·.ProjectID) _
      (fun t ht f hfk c => (rvTasksRegion_frame t ht f hfk c).1),
    show tasksPID srv F = [] by simp [tasksPID, h2], runWrites_nil]

theorem Reload_preserves_ProjectNumber {srv : Server} {F : MetadataField} {m : Metadata}
    (h4 : F &&& MetadataProjectNumber = 0) :
    (Reload srv F m).m.ProjectNumber = m.ProjectNumber := by
  show (runWrites m (tasks srv F)).ProjectNumber = m.ProjectNumber
  unfold tasks
  rw [runWrites_append, runWrites_append, runWrites_append,
    runWrites_proj (·.ProjectNumber) _
      (fun t ht f hfk c => (rvTasksEmail_frame t ht f hfk c).2.1),
    runWrites_proj (·.ProjectNumber) _
      (fun t ht f hfk c => (rvTasksIID_frame t ht f hfk c).2.1),
    runWrites_proj (·.ProjectNumber) _ (rvTasksRegion_frame_PN h4),
    runWrites_proj (·.ProjectNumber) _
      (fun t ht f hfk c => (rvTasksPID_frame t ht f hfk c).1)]

theorem Reload_preserves_Region {srv : Server} {F : MetadataField} {m : Metadata}
    (h8 : F &&& MetadataRegion = 0) :
    (Reload srv F m).m.Region = m.Region := by
  show (runWrites m (tasks srv F)).Region = m.Region
  unfold tasks
  rw [runWrites_append, runWrites_append, runWrites_append,
    runWrites_proj (·.Region) _
      (fun t ht f hfk c => (rvTasksEmail_frame t ht f hfk c).2.2.1),
    runWrites_proj (·.Region) _
      (fun t ht f hfk c => (rvTasksIID_frame t ht f hfk c).2.2.1),
    runWrites_proj (·.Region) _ (rvTasksRegion_frame_Region h8),
    runWrites_proj (·.Region) _
      (fun t ht f hfk c => (rvTasksPID_frame t ht f hfk c).2.1)]

theorem Reload_preserves_InstanceID {srv : Server} {F : MetadataField} {m : Metadata}
    (h16 : F &&& MetadataInstanceID = 0) :
    (Reload srv F m).m.InstanceID = m.InstanceID := by
  show (runWrites m (tasks srv F)).InstanceID = m.InstanceID
  unfold tasks
  rw [runWrites_append, runWrites_append, runWrites_append,
    runWrites_proj (·.InstanceID) _
      (fun t ht f hfk c => (rvTasksEmail_frame t ht f hfk c).2.2.2),
    show tasksIID srv F = [] by simp [tasksIID, h16], runWrites_nil,
    runWrites_proj (·.InstanceID) _
      (fun t ht f hfk c => (rvTasksRegion_frame t ht f hfk c).2.1),
    runWrites_proj (·.InstanceID) _
      (fun t ht f hfk c => (rvTasksPID_frame t ht f hfk c).2.2.1)]

theorem Reload_preserves_Email {srv : Server} {F : MetadataField} {m : Metadata}
    (h32 : F &&& MetadataServiceAccountEmail = 0) :
    (Reload srv F m).m.ServiceAccountEmail = m.ServiceAccountEmail := by
  show (runWrites m (tasks srv F)).ServiceAccountEmail = m.ServiceAccountEmail
  unfold tasks
  rw [runWrites_append, runWrites_append, runWrites_append,
    show tasksEmail srv F = [] by simp [tasksEmail, h32], runWrites_nil,
    runWrites_proj (·.ServiceAccountEmail) _
      (fun t ht f hfk c => (rvTasksIID_frame t ht f hfk c).2.2.2),
    runWrites_proj (·.ServiceAccountEmail) _
      (fun t ht f hfk c => (rvTasksRegion_frame t ht f hfk c).2.2),
    runWrites_proj (·.ServiceAccountEmail) _
      (fun t ht f hfk c => (rvTasksPID_frame t ht f hfk c).2.2.2)]

theorem envDecodeFields_PID {env : Env} {m : Metadata} (h : m.ProjectID ≠ []) :
    envDecodeFields env m &&& MetadataProjectID = 0 := by
  simp only [envDecodeFields]
  split_ifs <;> first | decide | simp_all

theorem envDecodeFields_PN {env : Env} {m : Metadata} (h : m.ProjectNumber ≠ []) :
    envDecodeFields env m &&& MetadataProjectNumber = 0 := by
  simp only [envDecodeFields]
  split_ifs <;> first | decide | simp_all

theorem envDecodeFields_Region {env : Env} {m : Metadata} (h : m.Region ≠ []) :
    envDecodeFields env m &&& MetadataRegion = 0 := by
  simp only [envDecodeFields]
  split_ifs <;> first | decide | simp_all

theorem envDecodeFields_IID {env : Env} {m : Metadata} (h : m.InstanceID ≠ []) :
    envDecodeFields env m &&& MetadataInstanceID = 0 := by
  simp only [envDecodeFields]
  split_ifs <;> first | decide | simp_all

theorem envDecodeFields_Email {env : Env} {m : Metadata} (h : m.ServiceAccountEmail ≠ []) :
    envDecodeFields env m &&& MetadataServiceAccountEmail = 0 := by
  simp only [envDecodeFields]
  split_ifs <;> first | decide | simp_all

theorem envDecodeFill_PID {env : Env} {m : Metadata} (h : m.ProjectID ≠ []) :
    (envDecodeFill env m).ProjectID = m.ProjectID := by
  simp only [envDecodeFill]
  split_ifs <;> first | rfl | simp_all

theorem envDecodeFill_PN {env : Env} {m : Metadata} (h : m.ProjectNumber ≠ []) :
    (envDecodeFill env m).ProjectNumber = m.ProjectNumber := by
  simp only [envDecodeFill]
  split_ifs <;> first | rfl | simp_all

theorem envDecodeFill_Region {env : Env} {m : Metadata} (h : m.Region ≠ []) :
    (envDecodeFill env m).Region = m.Region := by
  simp only [envDecodeFill]
  split_ifs <;> first | rfl | simp_all

theorem envDecodeFill_IID {env : Env} {m : Metadata} (h : m.InstanceID ≠ []) :
    (envDecodeFill env m).InstanceID = m.InstanceID := by
  simp only [envDecodeFill]
  split_ifs <;> first | rfl | simp_all

theorem envDecodeFill_Email {env : Env} {m : Metadata} (h : m.ServiceAccountEmail ≠ []) :
    (envDecodeFill env m).ServiceAccountEmail = m.ServiceAccountEmail := by
  simp only [envDecodeFill]
  split_ifs <;> first | rfl | simp_all

end ReloadVariant

/-- C7: the reload-into-existing-record mode (`Metadata.EnvDecode`,
job.go:396-441) never overwrites a field of the prior record that is
already non-empty and issues no fetch for it (such fields are skipped
entirely, their env lookup serving no purpose and their flag never
marked); and `Metadata.Reload` (job.go:310-381) issues a remote fetch
only for endpoints whose corresponding flag is set in the given field
set. -/
theorem envDecode_preserves_nonempty_and_fetches_only_selected
    (srv : Server) (env : Env) (m : Metadata) :
    (m.ProjectID ≠ [] →
      (ReloadVariant.EnvDecode srv env m).m.ProjectID = m.ProjectID ∧
      Endpoint.projectID ∉ (ReloadVariant.EnvDecode srv env m).fetches) ∧
    (m.ProjectNumber ≠ [] →
      (ReloadVariant.EnvDecode srv env m).m.ProjectNumber = m.ProjectNumber ∧
      Endpoint.numericProjectID ∉ (ReloadVariant.EnvDecode srv env m).fetches) ∧
    (m.Region ≠ [] →
      (ReloadVariant.EnvDecode srv env m).m.Region = m.Region ∧
      Endpoint.instanceRegion ∉ (ReloadVariant.EnvDecode srv env m).fetches) ∧
    (m.InstanceID ≠ [] →
      (ReloadVariant.EnvDecode srv env m).m.InstanceID = m.InstanceID ∧
      Endpoint.instanceID ∉ (ReloadVariant.EnvDecode srv env m).fetches) ∧
    (m.ServiceAccountEmail ≠ [] →
      (ReloadVariant.EnvDecode srv env m).m.ServiceAccountEmail = m.ServiceAccountEmail ∧
      Endpoint.email ∉ (ReloadVariant.EnvDecode srv env m).fetches) ∧
    (∀ (F : MetadataField) (p : Metadata) (ep : Endpoint),
      ep ∈ (ReloadVariant.Reload srv F p).fetches →
        (ep = Endpoint.projectID → F &&& MetadataProjectID ≠ 0) ∧
        (ep = Endpoint.instanceRegion → F &&& MetadataRegion ≠ 0) ∧
        (ep = Endpoint.numericProjectID → F &&& MetadataProjectNumber ≠ 0) ∧
        (ep = Endpoint.instanceID → F &&& MetadataInstanceID ≠ 0) ∧
        (ep = Endpoint.email → F &&& MetadataServiceAccountEmail ≠ 0)) := by
  refine ⟨fun h => ⟨?_, ?_⟩, fun h => ⟨?_, ?_⟩, fun h => ⟨?_, ?_⟩,
    fun h => ⟨?_, ?_⟩, fun h => ⟨?_, ?_⟩, ?_⟩
  · rw [show ReloadVariant.EnvDecode srv env m = ReloadVariant.Reload srv
        (ReloadVariant.envDecodeFields env m) (ReloadVariant.envDecodeFill env m) from rfl,
      ReloadVariant.Reload_preserves_ProjectID (ReloadVariant.envDecodeFields_PID h),
      ReloadVariant.envDecodeFill_PID h]
  · rw [show ReloadVariant.EnvDecode srv env m = ReloadVariant.Reload srv
        (ReloadVariant.envDecodeFields env m) (ReloadVariant.envDecodeFill env m) from rfl,
      ReloadVariant.Reload_fetches]
    simp only [List.mem_append, mem_ite_singleton, mem_ite_ite_singleton, not_or]
    simp [ReloadVariant.envDecodeFields_PID h]
  · rw [show ReloadVariant.EnvDecode srv env m = ReloadVariant.Reload srv
        (ReloadVariant.envDecodeFields env m) (ReloadVariant.envDecodeFill env m) from rfl,
      ReloadVariant.Reload_preserves_ProjectNumber (ReloadVariant.envDecodeFields_PN h),
      ReloadVariant.envDecodeFill_PN h]
  · rw [show ReloadVariant.EnvDecode srv env m = ReloadVariant.Reload srv
        (ReloadVariant.envDecodeFields env m) (ReloadVariant.envDecodeFill env m) from rfl,
      ReloadVariant.Reload_fetches]
    simp only [List.mem_append, mem_ite_singleton, mem_ite_ite_singleton, not_or]
    simp [ReloadVariant.envDecodeFields_PN h]
  · rw [show ReloadVariant.EnvDecode srv env m = ReloadVariant.Reload srv
        (ReloadVariant.envDecodeFields env m) (ReloadVariant.envDecodeFill env m) from rfl,
      ReloadVariant.Reload_preserves_Region (ReloadVariant.envDecodeFields_Region h),
      ReloadVariant.envDecodeFill_Region h]
  · rw [show ReloadVariant.EnvDecode srv env m = ReloadVariant.Reload srv
        (ReloadVariant.envDecodeFields env m) (ReloadVariant.envDecodeFill env m) from rfl,
      ReloadVariant.Reload_fetches]
    simp only [List.mem_append, mem_ite_singleton, mem_ite_ite_singleton, not_or]
    simp [ReloadVariant.envDecodeFields_Region h]
  · rw [show ReloadVariant.EnvDecode srv env m = ReloadVariant.Reload srv
        (ReloadVariant.envDecodeFields env m) (ReloadVariant.envDecodeFill env m) from rfl,
      ReloadVariant.Reload_preserves_InstanceID (ReloadVariant.envDecodeFields_IID h),
      ReloadVariant.envDecodeFill_IID h]
  · rw [show ReloadVariant.EnvDecode srv env m = ReloadVariant.Reload srv
        (ReloadVariant.envDecodeFields env m) (ReloadVariant.envDecodeFill env m) from rfl,
      ReloadVariant.Reload_fetches]
    simp only [List.mem_append, mem_ite_singleton, mem_ite_ite_singleton, not_or]
    simp [ReloadVariant.envDecodeFields_IID h]
  · rw [show ReloadVariant.EnvDecode srv env m = ReloadVariant.Reload srv
        (ReloadVariant.envDecodeFields env m) (ReloadVariant.envDecodeFill env m) from rfl,
      ReloadVariant.Reload_preserves_Email (ReloadVariant.envDecodeFields_Email h),
      ReloadVariant.envDecodeFill_Email h]
  · rw [show ReloadVariant.EnvDecode srv env m = ReloadVariant.Reload srv
        (ReloadVariant.envDecodeFields env m) (ReloadVariant.envDecodeFill env m) from rfl,
      ReloadVariant.Reload_fetches]
    simp only [List.mem_append, mem_ite_singleton, mem_ite_ite_singleton, not_or]
    simp [ReloadVariant.envDecodeFields_Email h]
  · intro F p ep hmem
    rw [ReloadVariant.Reload_fetches] at hmem
    simp only [List.mem_append, mem_ite_singleton, mem_ite_ite_singleton] at hmem
    rcases hmem with
      ((⟨hf, rfl⟩ | (⟨hf, rfl⟩ | ⟨h8, hf, rfl⟩)) | ⟨hf, rfl⟩) | ⟨hf, rfl⟩ <;>
      exact ⟨(fun he => by first | exact hf | cases he),
        (fun he => by first | exact hf | cases he),
        (fun he => by first | exact hf | cases he),
        (fun he => by first | exact hf | cases he),
        (fun he => by first | exact hf | cases he)⟩

/-- Witness for C7 at a prior record whose `ProjectID` is non-empty,
against a failing server. -/
theorem envDecode_preserves_nonempty_witness :
    mdKeep.ProjectID ≠ [] ∧
    ((ReloadVariant.EnvDecode srvAllFail envEmpty mdKeep).m.ProjectID =
        mdKeep.ProjectID ∧
      Endpoint.projectID ∉ (ReloadVariant.EnvDecode srvAllFail envEmpty mdKeep).fetches) :=
  ⟨by decide,
    (envDecode_preserves_nonempty_and_fetches_only_selected srvAllFail envEmpty
      mdKeep).1 (by decide)⟩

/-- Witness for the C6 amended characterization at a concrete successful
call requesting only the project ID, with a region override in the
environment. -/
theorem loadMetadata_success_field_characterization_witness :
    (MetadataGo.LoadMetadata srvAllOk envProjOverride MetadataProjectID []).res =
        some { ProjectID := str "srv-proj" } ∧
      (MetadataProjectID &&& MetadataProjectID ≠ 0 →
        srvAllOk.projectID = .ok (Metadata.ProjectID { ProjectID := str "srv-proj" })) :=
  ⟨by decide,
    (loadMetadata_success_field_characterization srvAllOk envProjOverride
      MetadataProjectID [] { ProjectID := str "srv-proj" } (by decide)).2.1⟩
